import Mathlib

/-!
Verification of the Vt102Emulation terminal-emulation core (Vt102Emulation.cpp).

The emulator state and its operations are translated from the C++ source into
executable Lean definitions: the mode registry (`setMode`, `resetMode`,
`saveMode`, `restoreMode`), the VT100 charset filter (`applyCharset`,
`setCharset`, `useCharset`), the tokenizer (`receiveChars` with its
`addDigit` / `addArgument` / `addToCurrentToken` helpers), the token
dispatcher (`processToken`), and the mouse encoder (`sendMouseEvent`).
Calls into collaborator objects (the two `Screen` instances, the outbound
byte channel, Qt signal emissions) are recorded as an ordered event trace.
-/

set_option maxHeartbeats 2000000
set_option autoImplicit false

namespace Konsole

/-- The boolean modes of the emulation.  The numeric `MODE_*` identifiers live
in `Vt102Emulation.h` / `Screen.h` (not in src/); only their identity matters
here, so they are represented as an enumeration.  `Col132` is `MODE_132Columns`
(a Lean name cannot start with a digit) and `Screen` is `MODE_Screen`
(reverse video). -/
inductive Mode where
  | Origin | Wrap | Insert | Screen | Cursor | NewLine
  | AppScreen | AppCuKeys | AppKeyPad
  | Mouse1000 | Mouse1001 | Mouse1002 | Mouse1003
  | Mouse1005 | Mouse1006 | Mouse1007 | Mouse1015
  | Ansi | Col132 | Allow132Columns | BracketedPaste
  deriving DecidableEq

/-- Modelled from the spec: the mode numbering of the missing headers.
`Screen.h` numbers `MODE_Origin` .. `MODE_NewLine` as 0..5 with
`MODES_SCREEN = 6`, so the dispatcher's forwarding guard
`m < MODES_SCREEN || m == MODE_NewLine` holds exactly for these six modes
(spec 4.3: "Modes numbered below MODES_SCREEN plus NewLine are additionally
forwarded to both screens"). -/
def Mode.forwardedToScreens : Mode → Bool
  | .Origin | .Wrap | .Insert | .Screen | .Cursor | .NewLine => true
  | _ => false

/-- Modelled from the spec: color-space tags of `CharacterColor.h` (not in
src/).  Only their distinctness is relevant. -/
def COLOR_SPACE_DEFAULT : Nat := 1
def COLOR_SPACE_SYSTEM : Nat := 2
def COLOR_SPACE_x256 : Nat := 3
def COLOR_SPACE_RGB : Nat := 4

/-- Modelled from the spec: rendition flag bits of `Character.h` (not in
src/).  Only their distinctness is relevant. -/
def RE_BOLD : Nat := 1
def RE_BLINK : Nat := 2
def RE_UNDERLINE : Nat := 4
def RE_REVERSE : Nat := 8
def RE_ITALIC : Nat := 16
def RE_FAINT : Nat := 32
def RE_STRIKEOUT : Nat := 64
def RE_CONCEAL : Nat := 128
def RE_OVERLINE : Nat := 256

/-- Modelled from the spec: line-property bits (not in src/). -/
def LINE_DOUBLEWIDTH : Nat := 2
def LINE_DOUBLEHEIGHT_TOP : Nat := 4
def LINE_DOUBLEHEIGHT_BOTTOM : Nat := 8

/-- One operation invoked on a `Screen` object (the Screen itself is outside
the core, see spec section 6; the core only issues these calls). -/
inductive ScreenOp where
  | displayCharacter (c : Int)
  | backspace | tab (n : Int) | newLine | toStartOfLine
  | index | nextLine | reverseIndex
  | changeTabStop (stop : Bool) | clearTabStops
  | clearToEndOfLine | clearToBeginOfLine | clearEntireLine
  | clearToEndOfScreen | clearToBeginOfScreen | clearEntireScreen
  | setMode (m : Mode) | resetMode (m : Mode) | saveMode (m : Mode) | restoreMode (m : Mode)
  | setRendition (r : Nat) | resetRendition (r : Nat) | setDefaultRendition
  | setForeColor (space : Int) (v : Int) | setBackColor (space : Int) (v : Int)
  | insertChars (n : Int) | deleteChars (n : Int)
  | insertLines (n : Int) | deleteLines (n : Int)
  | eraseChars (n : Int) | repeatChars (n : Int)
  | scrollUp (n : Int) | scrollDown (n : Int)
  | cursorUp (n : Int) | cursorDown (n : Int) | cursorLeft (n : Int) | cursorRight (n : Int)
  | cursorNextLine (n : Int) | cursorPreviousLine (n : Int)
  | setCursorX (n : Int) | setCursorY (n : Int) | setCursorYX (y : Int) (x : Int)
  | backtab (n : Int) | helpAlign
  | setLineProperty (p : Nat) (b : Bool)
  | setMargins (t : Int) (b : Int) | setDefaultMargins
  | saveCursor | restoreCursor | clearSelection
  | reset

/-- One externally observable action of the core: a call on one of the two
screens (index 0 = primary, 1 = alternate), bytes sent to the child
(`sendData` via `sendString`), a Qt signal emission, or a call into a helper
whose own output depends on state outside src/ (recorded as an opaque
marker). -/
inductive Event where
  | screen (idx : Nat) (op : ScreenOp)
  | sendData (bytes : List Nat)
  | bell
  | reportDecodingError
  | programRequestsMouseTracking (b : Bool)
  | programBracketedPasteModeChanged (b : Bool)
  | enableAlternateScrolling (b : Bool)
  | imageResizeRequest (width : Int) (height : Int)
  | setImageSize (lines : Int) (columns : Int)
  | setCursorStyleRequest (shape : Int) (blinking : Bool)
  | resetCursorStyleRequest
  | clearHistory
  | setCodecUtf8 (utf8 : Bool)
  | urlToggleInput
  | urlSet (url : List Nat)
  | sessionAttributeRequest (attr : Nat) (terminator : Nat)
  | pendingSessionAttribute (attr : Nat) (value : List Nat)
  | cursorPositionReport
  | reportAnswerBack

/-- The per-screen charset state (`Vt102Emulation.h::Charset`): four
designator slots, the active slot index `cu_cs`, the derived `graphic` /
`pound` flags, and their save-cursor snapshots. -/
structure CharsetState where
  cu_cs : Nat
  charset : Nat → Nat
  sa_graphic : Bool
  sa_pound : Bool
  graphic : Bool
  pound : Bool

/-- Source `resetCharset` loads slot designators "BBBB" (0x42) and clears flags. -/
def freshCharset : CharsetState :=
  { cu_cs := 0, charset := fun _ => 0x42,
    sa_graphic := false, sa_pound := false, graphic := false, pound := false }

/-- Modelled from the spec: `MAXARGS` of the missing header; the spec gives
"at most MAXARGS (e.g. 15) integers". -/
def MAXARGS : Nat := 15

/-- Modelled from the spec: `MAX_TOKEN_LENGTH` of the missing header; the spec
gives "capacity MAX_TOKEN_LENGTH, e.g. 80 KiB worth of u32s", i.e. 20480
entries.  All theorems below are independent of the exact value. -/
def MAX_TOKEN_LENGTH : Nat := 20480

/-- Source `const int MAX_ARGUMENT = 40960;` (Vt102Emulation.cpp). -/
def MAX_ARGUMENT : Nat := 40960

/-- The whole emulator state.  `screenIs1` is the `_currentScreen ==
_screen[1]` discriminator used by the `CHARSET` macro; `lines`/`cols` is the
(shared) screen geometry read by `reportSize` and
`clearScreenAndSetColumns`; `urlReading` models the begin/end state of the
URL extractor (outside src/); `events` is the ordered trace of observable
actions. -/
structure EmuState where
  currentModes : Mode → Bool
  savedModes : Mode → Bool
  charset0 : CharsetState
  charset1 : CharsetState
  screenIs1 : Bool
  lines : Int
  cols : Int
  urlReading : Bool
  reportFocusEvents : Bool
  tokenBuffer : Nat → Nat
  tokenBufferPos : Nat
  argv : Nat → Nat
  argc : Nat
  events : List Event

namespace EmuState

def emit (st : EmuState) (e : Event) : EmuState :=
  { st with events := st.events ++ [e] }

def curScreen (st : EmuState) : Nat := if st.screenIs1 then 1 else 0

/-- A call on `_currentScreen`. -/
def screenOp (st : EmuState) (op : ScreenOp) : EmuState :=
  st.emit (.screen st.curScreen op)

/-- The same call on `_screen[0]` then `_screen[1]`. -/
def bothScreens (st : EmuState) (op : ScreenOp) : EmuState :=
  (st.emit (.screen 0 op)).emit (.screen 1 op)

/-- The `CHARSET` macro: `_charset[_currentScreen == _screen[1]]`. -/
def CHARSET (st : EmuState) : CharsetState :=
  if st.screenIs1 then st.charset1 else st.charset0

/-- Assignment through the `CHARSET` macro. -/
def setCHARSET (st : EmuState) (cs : CharsetState) : EmuState :=
  if st.screenIs1 then { st with charset1 := cs } else { st with charset0 := cs }

end EmuState

/-- Source `Vt102Emulation::resetTokenizer`: zero the buffer position, the argument
count and the first two argument slots (higher slots keep stale values, as in
the source). -/
def resetTokenizer (st : EmuState) : EmuState :=
  { st with tokenBufferPos := 0, argc := 0,
            argv := fun i => if i = 0 then 0 else if i = 1 then 0 else st.argv i }

/-- Source `Vt102Emulation::addDigit`: `argv[argc] = qMin(10*argv[argc] + digit, MAX_ARGUMENT)`. -/
def addDigit (st : EmuState) (digit : Nat) : EmuState :=
  { st with argv := fun i =>
      if i = st.argc then min (10 * st.argv st.argc + digit) MAX_ARGUMENT else st.argv i }

/-- Source `Vt102Emulation::addArgument`: `argc = qMin(argc+1, MAXARGS-1); argv[argc] = 0`. -/
def addArgument (st : EmuState) : EmuState :=
  let argc1 := min (st.argc + 1) (MAXARGS - 1)
  { st with argc := argc1, argv := fun i => if i = argc1 then 0 else st.argv i }

/-- Source `Vt102Emulation::addToCurrentToken`:
`tokenBufferPos = qMin(tokenBufferPos, MAX_TOKEN_LENGTH-1); tokenBuffer[tokenBufferPos] = cc; tokenBufferPos++`. -/
def addToCurrentToken (st : EmuState) (cc : Nat) : EmuState :=
  let p := min st.tokenBufferPos (MAX_TOKEN_LENGTH - 1)
  { st with tokenBuffer := fun i => if i = p then cc else st.tokenBuffer i,
            tokenBufferPos := p + 1 }

/-- Source `Vt102Emulation::getMode`. -/
def getMode (st : EmuState) (m : Mode) : Bool := st.currentModes m

/-- A raw `_currentModes.mode[m] = b` assignment. -/
def setCurrentMode (st : EmuState) (m : Mode) (b : Bool) : EmuState :=
  { st with currentModes := fun x => if x = m then b else st.currentModes x }

/-- Modelled from the spec: `Emulation::setScreen` (Emulation.cpp is not in
src/) retargets `_currentScreen` to `_screen[n & 1]`; spec 4.3: on AppScreen
set/reset the active screen switches. -/
def setScreen (st : EmuState) (n : Nat) : EmuState :=
  { st with screenIs1 := n % 2 = 1 }

/-- Modelled from the spec: `Emulation::setImageSize` (not in src/) resizes
both screens to the given geometry (spec 6 lists `setImageSize(rows, cols)`
among the screen operations). -/
def setImageSize (st : EmuState) (lines columns : Int) : EmuState :=
  ({ st with lines := lines, cols := columns } : EmuState).emit (.setImageSize lines columns)

/-- Source `Vt102Emulation::clearEntireScreen` (the emulation-level one). -/
def clearEntireScreenEmu (st : EmuState) : EmuState :=
  st.screenOp .clearEntireScreen

/-- Source `Vt102Emulation::clearScreenAndSetColumns`. -/
def clearScreenAndSetColumns (st : EmuState) (columnCount : Int) : EmuState :=
  let st1 := setImageSize st st.lines columnCount
  let st2 := clearEntireScreenEmu st1
  let st3 := st2.bothScreens .setDefaultMargins
  st3.screenOp (.setCursorYX 0 0)

/-- Source `Vt102Emulation::setMode`. -/
def setMode (st : EmuState) (m : Mode) : EmuState :=
  let st := setCurrentMode st m true
  let st :=
    match m with
    | .Col132 =>
        if getMode st .Allow132Columns then clearScreenAndSetColumns st 132
        else setCurrentMode st m false
    | .Mouse1000 | .Mouse1001 | .Mouse1002 | .Mouse1003 =>
        let st := setCurrentMode st .Mouse1000 false
        let st := setCurrentMode st .Mouse1001 false
        let st := setCurrentMode st .Mouse1002 false
        let st := setCurrentMode st .Mouse1003 false
        let st := setCurrentMode st m true
        st.emit (.programRequestsMouseTracking true)
    | .Mouse1007 => st.emit (.enableAlternateScrolling true)
    | .Mouse1005 | .Mouse1006 | .Mouse1015 =>
        let st := setCurrentMode st .Mouse1005 false
        let st := setCurrentMode st .Mouse1006 false
        let st := setCurrentMode st .Mouse1015 false
        setCurrentMode st m true
    | .BracketedPaste => st.emit (.programBracketedPasteModeChanged true)
    | .AppScreen =>
        let st := st.emit (.screen 1 .setDefaultRendition)
        let st := st.emit (.screen 1 .clearSelection)
        setScreen st 1
    | _ => st
  if m.forwardedToScreens then st.bothScreens (.setMode m) else st

/-- Source `Vt102Emulation::resetMode`. -/
def resetMode (st : EmuState) (m : Mode) : EmuState :=
  let st := setCurrentMode st m false
  let st :=
    match m with
    | .Col132 =>
        if getMode st .Allow132Columns then clearScreenAndSetColumns st 80 else st
    | .Mouse1000 | .Mouse1001 | .Mouse1002 | .Mouse1003 =>
        let st := setCurrentMode st .Mouse1000 false
        let st := setCurrentMode st .Mouse1001 false
        let st := setCurrentMode st .Mouse1002 false
        let st := setCurrentMode st .Mouse1003 false
        st.emit (.programRequestsMouseTracking false)
    | .Mouse1007 => st.emit (.enableAlternateScrolling false)
    | .BracketedPaste => st.emit (.programBracketedPasteModeChanged false)
    | .AppScreen =>
        let st := st.emit (.screen 0 .clearSelection)
        setScreen st 0
    | _ => st
  if m.forwardedToScreens then st.bothScreens (.resetMode m) else st

/-- Source `Vt102Emulation::saveMode`: `_savedModes.mode[m] = _currentModes.mode[m]`. -/
def saveMode (st : EmuState) (m : Mode) : EmuState :=
  { st with savedModes := fun x => if x = m then st.currentModes m else st.savedModes x }

/-- Source `Vt102Emulation::restoreMode`. -/
def restoreMode (st : EmuState) (m : Mode) : EmuState :=
  if st.savedModes m then setMode st m else resetMode st m

/-- Source `Vt102Emulation::resetModes`, transcribed in source order.
`MODE_Allow132Columns` and `MODE_Mouse1007` are not touched. -/
def resetModes (st : EmuState) : EmuState :=
  let st := saveMode (resetMode st .Col132) .Col132
  let st := saveMode (resetMode st .Mouse1000) .Mouse1000
  let st := saveMode (resetMode st .Mouse1001) .Mouse1001
  let st := saveMode (resetMode st .Mouse1002) .Mouse1002
  let st := saveMode (resetMode st .Mouse1003) .Mouse1003
  let st := saveMode (resetMode st .Mouse1005) .Mouse1005
  let st := saveMode (resetMode st .Mouse1006) .Mouse1006
  let st := saveMode (resetMode st .Mouse1015) .Mouse1015
  let st := saveMode (resetMode st .BracketedPaste) .BracketedPaste
  let st := saveMode (resetMode st .AppScreen) .AppScreen
  let st := saveMode (resetMode st .AppCuKeys) .AppCuKeys
  let st := saveMode (resetMode st .AppKeyPad) .AppKeyPad
  let st := resetMode st .NewLine
  setMode st .Ansi

/-- Source `Vt102Emulation::resetCharset(scrno)`. -/
def resetCharset (st : EmuState) (scrno : Nat) : EmuState :=
  if scrno = 0 then { st with charset0 := freshCharset }
  else { st with charset1 := freshCharset }

/-- Source `Vt102Emulation::reset` (ESC c).  The codec round-trip is not modelled:
the codec is an external `QTextCodec` and does not feed back into the state
covered here. -/
def reset (st : EmuState) : EmuState :=
  let st := resetTokenizer st
  let st := resetModes st
  let st := resetCharset st 0
  let st := st.emit (.screen 0 .reset)
  let st := resetCharset st 1
  let st := st.emit (.screen 1 .reset)
  st.emit .resetCursorStyleRequest

/-- The freshly constructed emulator: default (all-false) modes, "BBBB"
charsets, primary screen, zeroed tokenizer, 24x80 geometry. -/
def defaultState : EmuState :=
  { currentModes := fun _ => false, savedModes := fun _ => false,
    charset0 := freshCharset, charset1 := freshCharset, screenIs1 := false,
    lines := 24, cols := 80, urlReading := false, reportFocusEvents := false,
    tokenBuffer := fun _ => 0, tokenBufferPos := 0,
    argv := fun _ => 0, argc := 0, events := [] }

/-- The emulator after its initial `reset()`, with the trace cleared: ANSI
mode on, US-ASCII charsets, empty tokenizer. -/
def initState : EmuState :=
  { reset defaultState with events := [] }

/-- The mutually exclusive mouse-tracking group (xterm 1000..1003). -/
def Mode.isMouseTrack : Mode → Bool
  | .Mouse1000 | .Mouse1001 | .Mouse1002 | .Mouse1003 => true
  | _ => false

/-- The mutually exclusive mouse-encoding group (1005 / 1006 / 1015). -/
def Mode.isMouseEnc : Mode → Bool
  | .Mouse1005 | .Mouse1006 | .Mouse1015 => true
  | _ => false

/-- Numeric value of a mode bit: `1` for set, `0` otherwise. -/
def bitVal (b : Bool) : Nat := if b then 1 else 0

/-- Number of mouse-tracking modes (1000..1003) currently set. -/
def mouseTrackCount (st : EmuState) : Nat :=
  bitVal (st.currentModes .Mouse1000) + bitVal (st.currentModes .Mouse1001) +
    bitVal (st.currentModes .Mouse1002) + bitVal (st.currentModes .Mouse1003)

/-- Number of mouse-encoding modes (1005/1006/1015) currently set. -/
def mouseEncCount (st : EmuState) : Nat :=
  bitVal (st.currentModes .Mouse1005) + bitVal (st.currentModes .Mouse1006) +
    bitVal (st.currentModes .Mouse1015)

/-- At most one mode of each mouse group is set. -/
def MouseExclusive (st : EmuState) : Prop :=
  mouseTrackCount st ≤ 1 ∧ mouseEncCount st ≤ 1

instance (st : EmuState) : Decidable (MouseExclusive st) := by
  unfold MouseExclusive; infer_instance

/-- One mode-registry operation; the CSI `?` `h`/`l`/`s`/`r` dispatch cases of
`processToken` invoke exactly `setMode` / `resetMode` / `saveMode` /
`restoreMode`. -/
inductive ModeOp where
  | set (m : Mode) | reset (m : Mode) | save (m : Mode) | restore (m : Mode)

def applyModeOp (st : EmuState) : ModeOp → EmuState
  | .set m => setMode st m
  | .reset m => resetMode st m
  | .save m => saveMode st m
  | .restore m => restoreMode st m

/-- An intervening sequence of `setMode(m)` (true) / `resetMode(m)` (false)
operations on the same mode `m`. -/
def modeOpsOn (m : Mode) (bs : List Bool) (st : EmuState) : EmuState :=
  bs.foldl (fun s b => if b then setMode s m else resetMode s m) st

/-! ### VT100 charsets -/

/-- Source `Konsole::vt100_graphics` (the 32-entry DEC graphics table). -/
def vt100_graphics : List Nat :=
  [0x0020, 0x25C6, 0x2592, 0x2409, 0x240c, 0x240d, 0x240a, 0x00b0,
   0x00b1, 0x2424, 0x240b, 0x2518, 0x2510, 0x250c, 0x2514, 0x253c,
   0xF800, 0xF801, 0x2500, 0xF803, 0xF804, 0x251c, 0x2524, 0x2534,
   0x252c, 0x2502, 0x2264, 0x2265, 0x03C0, 0x2260, 0x00A3, 0x00b7]

/-- Source `Vt102Emulation::applyCharset`, as a function of one charset state. -/
def applyCharsetCS (cs : CharsetState) (c : Nat) : Nat :=
  if cs.graphic = true ∧ 0x5f ≤ c ∧ c ≤ 0x7e then vt100_graphics.getD (c - 0x5f) 0
  else if cs.pound = true ∧ c = 0x23 then 0xa3
  else c

/-- Source `Vt102Emulation::applyCharset` (reads through the `CHARSET` macro). -/
def applyCharset (st : EmuState) (c : Nat) : Nat :=
  applyCharsetCS st.CHARSET c

/-- Source `Vt102Emulation::useCharset`: activates slot `n & 3` of the *current*
screen's charset state and recomputes the `graphic` / `pound` flags. -/
def useCharset (st : EmuState) (n : Nat) : EmuState :=
  let cs := st.CHARSET
  st.setCHARSET
    { cs with cu_cs := n % 4,
              graphic := decide (cs.charset (n % 4) = 0x30),
              pound := decide (cs.charset (n % 4) = 0x41) }

/-- Source `Vt102Emulation::setCharset` (commented "on both screens."): writes slot
`n & 3` of both screens' designator tables; each `useCharset` call goes
through the `CHARSET` macro, i.e. acts on the *current* screen's state. -/
def setCharset (st : EmuState) (n : Nat) (cs : Nat) : EmuState :=
  let st := { st with charset0 := { st.charset0 with
    charset := fun i => if i = n % 4 then cs else st.charset0.charset i } }
  let st := useCharset st st.charset0.cu_cs
  let st := { st with charset1 := { st.charset1 with
    charset := fun i => if i = n % 4 then cs else st.charset1.charset i } }
  useCharset st st.charset1.cu_cs

/-- Source `Vt102Emulation::setAndUseCharset` (current screen only). -/
def setAndUseCharset (st : EmuState) (n : Nat) (cs : Nat) : EmuState :=
  let c := st.CHARSET
  let st := st.setCHARSET
    { c with charset := fun i => if i = n % 4 then cs else c.charset i }
  useCharset st (n % 4)

/-- Source `Vt102Emulation::saveCursor` (charset flags snapshot + screen call). -/
def saveCursor (st : EmuState) : EmuState :=
  let c := st.CHARSET
  let st := st.setCHARSET { c with sa_graphic := c.graphic, sa_pound := c.pound }
  st.screenOp .saveCursor

/-- Source `Vt102Emulation::restoreCursor`. -/
def restoreCursor (st : EmuState) : EmuState :=
  let c := st.CHARSET
  let st := st.setCHARSET { c with graphic := c.sa_graphic, pound := c.sa_pound }
  st.screenOp .restoreCursor

/-! ### Byte formatting and outbound replies -/

/-- ASCII code points of a string literal. -/
def ascii (s : String) : List Nat := s.toList.map Char.toNat

/-- Decimal ASCII digits of `n` (fuel-driven division loop). -/
def decDigitsAux : Nat → Nat → List Nat
  | 0, _ => []
  | _ + 1, 0 => []
  | fuel + 1, n => decDigitsAux fuel (n / 10) ++ [0x30 + n % 10]

/-- The %d rendering of a nonnegative value. -/
def decimal (n : Nat) : List Nat :=
  if n = 0 then [0x30] else decDigitsAux (n + 1) n

/-- The %d rendering of an int. -/
def intDecimal (i : Int) : List Nat :=
  if i < 0 then 0x2d :: decimal i.natAbs else decimal i.natAbs

/-- The unsigned byte printed by a %c conversion of an int. -/
def byteOf (i : Int) : Nat := ((i % 256 + 256) % 256).toNat

/-- UTF-8 bytes of a code point below 0x800 (1005-mode coordinates are at
most 2015 + 32). -/
def utf8Le2 (n : Nat) : List Nat :=
  if n < 0x80 then [n] else [0xc0 + n / 64, 0x80 + n % 64]

/-- Source `Vt102Emulation::sendString`: `Q_EMIT sendData(s)`. -/
def sendString (st : EmuState) (s : List Nat) : EmuState := st.emit (.sendData s)

/-- Source `Vt102Emulation::reportCursorPosition` builds its reply from the screen's
cursor coordinates and margins, which live outside src/; the call is
recorded as an opaque event. -/
def reportCursorPosition (st : EmuState) : EmuState := st.emit .cursorPositionReport

/-- Source `Vt102Emulation::reportSize`: `ESC [ 8 ; <lines> ; <cols> t`. -/
def reportSize (st : EmuState) : EmuState :=
  sendString st (ascii "\x1b[8;" ++ intDecimal st.lines ++ [0x3b] ++
    intDecimal st.cols ++ [0x74])

/-- Source `Vt102Emulation::reportTerminalType` (DA1 reply). -/
def reportTerminalType (st : EmuState) : EmuState :=
  if getMode st .Ansi then sendString st (ascii "\x1b[?1;2c")
  else sendString st (ascii "\x1b/Z")

/-- Source `Vt102Emulation::reportTertiaryAttributes` (DA3 reply). -/
def reportTertiaryAttributes (st : EmuState) : EmuState :=
  sendString st (ascii "\x1bP!|7E4B4445\x1b\\")

/-- Source `Vt102Emulation::reportSecondaryAttributes` (DA2 reply). -/
def reportSecondaryAttributes (st : EmuState) : EmuState :=
  if getMode st .Ansi then sendString st (ascii "\x1b[>0;115;0c")
  else sendString st (ascii "\x1b/Z")

/-- Source `Vt102Emulation::reportTerminalParms` (DECREPTPARM). -/
def reportTerminalParms (st : EmuState) (p : Int) : EmuState :=
  sendString st (ascii "\x1b[" ++ intDecimal p ++ ascii ";1;1;112;112;1;0x")

/-- Source `Vt102Emulation::reportStatus` (DSR reply). -/
def reportStatus (st : EmuState) : EmuState := sendString st (ascii "\x1b[0n")

/-- Source `Vt102Emulation::reportAnswerBack` (empty answerback string). -/
def reportAnswerBackOp (st : EmuState) : EmuState := sendString st []

/-- Source `Vt102Emulation::processChecksumRequest` in the default build
(`ENABLE_DECRQCRA` not defined): the checksum stays 0, `-0 & 0xffff = 0`,
and the reply is `ESC P <argv0> ! ~ 0000 ST`. -/
def processChecksumRequest (st : EmuState) : EmuState :=
  sendString st (ascii "\x1bP" ++ decimal (st.argv 0) ++ ascii "!~0000\x1b\\")

/-! ### OSC (session attribute) handling -/

/-- Modelled from the spec: `Session::ProfileChange` (Session.h not in src/);
only its identity is used, to select the profile-change branch. -/
def ProfileChange : Nat := 50

/-- Modelled from the spec: the URL extractor (EscapeSequenceUrlExtractor,
not in src/) toggles between idle and reading on each OSC 8 framing
sequence. -/
def toggleUrlInput (st : EmuState) : EmuState :=
  ({ st with urlReading := !st.urlReading } : EmuState).emit .urlToggleInput

/-- The leading digit scan of `processSessionAttributeRequest`
(`for (i = 2; i < tokenSize && isDigit(tokenBuffer[i]); i++)`),
returning the accumulated attribute and the stop index. -/
def scanAttrAux (buf : Nat → Nat) (ts : Nat) : Nat → Nat → Nat → Nat × Nat
  | 0, i, attrV => (attrV, i)
  | fuel + 1, i, attrV =>
      if i < ts ∧ 0x30 ≤ buf i ∧ buf i ≤ 0x39 then
        scanAttrAux buf ts fuel (i + 1) (10 * attrV + (buf i - 0x30))
      else (attrV, i)

/-- Source `value.remove(0, value.indexOf(';') + 1)`: QString::indexOf yields -1
when absent, removing nothing. -/
def dropThroughSemicolon (v : List Nat) : List Nat :=
  match v.findIdx? (fun c => c == 0x3b) with
  | some j => v.drop (j + 1)
  | none => v

/-- Source `QStringView(value).right(1).toInt()`: the last character as a digit
(QString::toInt yields 0 on failure). -/
def lastCharToInt (v : List Nat) : Int :=
  match v.getLast? with
  | some c => if 0x30 ≤ c ∧ c ≤ 0x39 then (c : Int) - 0x30 else 0
  | none => 0

/-- The code points `buf[start .. start+len-1]`. -/
def bufSlice (buf : Nat → Nat) (start len : Nat) : List Nat :=
  (List.range len).map (fun k => buf (start + k))

/-- Source `Vt102Emulation::processSessionAttributeRequest`.  The pending-attribute
map and its 20 ms coalescing timer, the URL extractor, and the cursor-shape
signal live outside src/; storing/emitting through them is recorded as
events.  The cursor-shape emission takes the signal's default blink
argument. -/
def processSessionAttributeRequest (st : EmuState) (tokenSize : Nat) : EmuState :=
  let ts := tokenSize - 1
  let scanned := scanAttrAux st.tokenBuffer ts ts 2 0
  let attrV := scanned.1
  let i := scanned.2
  if st.tokenBuffer i ≠ 0x3b then st.emit .reportDecodingError
  else
    let value := bufSlice st.tokenBuffer (i + 1) (ts - (i + 1))
    if st.urlReading then st.emit (.urlSet (dropThroughSemicolon value))
    else if value = [0x3f] then
      st.emit (.sessionAttributeRequest attrV (st.tokenBuffer ts))
    else if attrV = ProfileChange ∧ (ascii "CursorShape=").isPrefixOf value then
      st.emit (.setCursorStyleRequest (lastCharToInt value) true)
    else st.emit (.pendingSessionAttribute attrV value)

/-! ### Mouse encoder -/

/-- Source `Vt102Emulation::sendMouseEvent`.  `none` models the early returns (the
`sendData` signal is never emitted); `some bytes` models the final
`sendString(command)` call (`bytes` is empty when no encoding branch filled
the buffer).  snprintf's 40-byte truncation is not modelled (unreachable for
in-range arguments). -/
def sendMouseEvent (st : EmuState) (cb cx cy eventType : Int) : Option (List Nat) :=
  if cx < 1 ∨ cy < 1 then none
  else if eventType = 1 ∧ getMode st .Mouse1000 then none
  else if cb = 3 ∧ getMode st .Mouse1002 then none
  else
    let cb1 := if eventType = 2 ∧ ¬ getMode st .Mouse1006 then 3 else cb
    let cb2 := if 4 ≤ cb1 then cb1 + 0x3c else cb1
    let cb3 := if (getMode st .Mouse1002 ∨ getMode st .Mouse1003) ∧ eventType = 1
               then cb2 + 0x20 else cb2
    if getMode st .Mouse1006 then
      some (ascii "\x1b[<" ++ intDecimal cb3 ++ [0x3b] ++ intDecimal cx ++ [0x3b] ++
            intDecimal cy ++ [if eventType = 2 then 0x6d else 0x4d])
    else if getMode st .Mouse1015 then
      some (ascii "\x1b[" ++ intDecimal (cb3 + 0x20) ++ [0x3b] ++ intDecimal cx ++
            [0x3b] ++ intDecimal cy ++ [0x4d])
    else if getMode st .Mouse1005 then
      if cx ≤ 2015 ∧ cy ≤ 2015 then
        some (ascii "\x1b[M" ++ [byteOf (cb3 + 0x20)] ++
              utf8Le2 (cx + 0x20).toNat ++ utf8Le2 (cy + 0x20).toNat)
      else some []
    else if cx ≤ 223 ∧ cy ≤ 223 then
      some (ascii "\x1b[M" ++ [byteOf (cb3 + 0x20), byteOf (cx + 0x20), byteOf (cy + 0x20)])
    else some []

/-! ### Tokenizer: character classes and scan predicates -/

/-- Character-class flag bits. -/
def CTL : Nat := 1
def CHR : Nat := 2
def CPN : Nat := 4
def DIG : Nat := 8
def SCS : Nat := 16
def GRP : Nat := 32
def CPS : Nat := 64
def INT : Nat := 128

/-- The `charClass` table as built by `initTokenizer` (flag bits are
disjoint, so the accumulation is a plain sum). -/
def charClass (c : Nat) : Nat :=
  (if c < 32 then CTL else 0) +
  (if 32 ≤ c ∧ c < 256 then CHR else 0) +
  (if 0x20 ≤ c ∧ c < 0x30 then INT else 0) +
  (if c ∈ ascii "@ABCDEFGHILMPSTXZbcdfry" then CPN else 0) +
  (if c = 0x74 then CPS else 0) +
  (if 0x30 ≤ c ∧ c ≤ 0x39 then DIG else 0) +
  (if c ∈ ascii "()+*%" then SCS else 0) +
  (if c ∈ ascii "()+*#[]%" then GRP else 0)

/-- Source `ces(C)`: `cc < 256 && (charClass[cc] & C) == C`. -/
def ces (cc C : Nat) : Bool := decide (cc < 256) && (charClass cc &&& C == C)

/-- Source `lec(P,L,C)`: `p == P && s[L] == C`. -/
def lec (st : EmuState) (P L C : Nat) : Bool :=
  st.tokenBufferPos == P && st.tokenBuffer L == C

/-- Source `lun()`: `p == 1 && cc >= 32`. -/
def lun (st : EmuState) (cc : Nat) : Bool :=
  st.tokenBufferPos == 1 && decide (32 ≤ cc)

/-- Source `les(P,L,C)`: `p == P && s[L] < 256 && (charClass[s[L]] & C) == C`. -/
def les (st : EmuState) (P L C : Nat) : Bool :=
  st.tokenBufferPos == P && decide (st.tokenBuffer L < 256) &&
    (charClass (st.tokenBuffer L) &&& C == C)

/-- Source `eec(C)`: `p >= 3 && cc == C`. -/
def eec (st : EmuState) (cc c : Nat) : Bool :=
  decide (3 ≤ st.tokenBufferPos) && cc == c

/-- Source `ees(C)`: `p >= 3 && cc < 256 && (charClass[cc] & C) == C`. -/
def ees (st : EmuState) (cc C : Nat) : Bool :=
  decide (3 ≤ st.tokenBufferPos) && decide (cc < 256) && (charClass cc &&& C == C)

/-- Source `eps(C)`: as `ees` but with no private prefix at `s[2]` and no
intermediate byte at `s[p-2]`. -/
def eps (st : EmuState) (cc C : Nat) : Bool :=
  decide (3 ≤ st.tokenBufferPos) &&
  st.tokenBuffer 2 != 0x3f && st.tokenBuffer 2 != 0x21 &&
  st.tokenBuffer 2 != 0x3d && st.tokenBuffer 2 != 0x3e &&
  decide (cc < 256) && (charClass cc &&& C == C) &&
  !(charClass (st.tokenBuffer (st.tokenBufferPos - 2)) &&& INT == INT)

/-- Source `epp()`: `p >= 3 && s[2] == '?'`. -/
def epp (st : EmuState) : Bool :=
  decide (3 ≤ st.tokenBufferPos) && st.tokenBuffer 2 == 0x3f

/-- Source `epe()`: `p >= 3 && s[2] == '!'`. -/
def epe (st : EmuState) : Bool :=
  decide (3 ≤ st.tokenBufferPos) && st.tokenBuffer 2 == 0x21

/-- Source `eeq()`: `p >= 3 && s[2] == '='`. -/
def eeq (st : EmuState) : Bool :=
  decide (3 ≤ st.tokenBufferPos) && st.tokenBuffer 2 == 0x3d

/-- Source `egt()`: `p >= 3 && s[2] == '>'`. -/
def egt (st : EmuState) : Bool :=
  decide (3 ≤ st.tokenBufferPos) && st.tokenBuffer 2 == 0x3e

/-- Source `esp()`: `p >= 4 && s[2] == SP`. -/
def esp (st : EmuState) : Bool :=
  decide (4 ≤ st.tokenBufferPos) && st.tokenBuffer 2 == 0x20

/-- Source `epsp()`: `p >= 5 && s[3] == SP`. -/
def epsp (st : EmuState) : Bool :=
  decide (5 ≤ st.tokenBufferPos) && st.tokenBuffer 3 == 0x20

/-- Source `osc`: `tokenBufferPos >= 2 && tokenBuffer[1] == ']'`. -/
def osc (st : EmuState) : Bool :=
  decide (2 ≤ st.tokenBufferPos) && st.tokenBuffer 1 == 0x5d

/-- Source `dcs`: `p >= 2 && s[0] == ESC && s[1] == 'P'`. -/
def dcs (st : EmuState) : Bool :=
  decide (2 ≤ st.tokenBufferPos) && st.tokenBuffer 0 == 27 && st.tokenBuffer 1 == 0x50

/-! ### Tokens -/

/-- The scanner's token as a tagged variant (the source packs the same data
into a machine word; see `token_construct`).  The smart constructors below
apply the word packing's masks: the final/`a` field is 8 bits, the numeric
`n` field 16 bits. -/
inductive Token where
  | chr
  | ctl (a : Nat)
  | esc (a : Nat)
  | escCs (a b : Nat)
  | escDe (a : Nat)
  | csiPs (a n : Nat)
  | csiPn (a : Nat)
  | csiPr (a n : Nat)
  | vt52 (a : Nat)
  | csiPg (a : Nat)
  | csiPe (a : Nat)
  | csiSp (a : Nat)
  | csiPsp (a n : Nat)
  | csiPq (a : Nat)

def tokenChr : Token := .chr
def tokenCtl (a : Nat) : Token := .ctl (a % 256)
def tokenEsc (a : Nat) : Token := .esc (a % 256)
def tokenEscCs (a b : Nat) : Token := .escCs (a % 256) (b % 65536)
def tokenEscDe (a : Nat) : Token := .escDe (a % 256)
def tokenCsiPs (a n : Nat) : Token := .csiPs (a % 256) (n % 65536)
def tokenCsiPn (a : Nat) : Token := .csiPn (a % 256)
def tokenCsiPr (a n : Nat) : Token := .csiPr (a % 256) (n % 65536)
def tokenVt52 (a : Nat) : Token := .vt52 (a % 256)
def tokenCsiPg (a : Nat) : Token := .csiPg (a % 256)
def tokenCsiPe (a : Nat) : Token := .csiPe (a % 256)
def tokenCsiSp (a : Nat) : Token := .csiSp (a % 256)
def tokenCsiPsp (a n : Nat) : Token := .csiPsp (a % 256) (n % 65536)
def tokenCsiPq (a : Nat) : Token := .csiPq (a % 256)

/-- Modelled from the spec: Enum::CursorShapeEnum (Enum.h not in src/). -/
def BlockCursor : Int := 0
def IBeamCursor : Int := 1
def UnderlineCursor : Int := 2

/-- A call of `Vt102Emulation::reportDecodingError`.  The function body only
assembles a log string (and suppresses it for an empty buffer or a single
printable character); the event records the call itself. -/
def reportDecodingErrorCall (st : EmuState) : EmuState := st.emit .reportDecodingError

/-! ### The token dispatcher -/

/-- The `token_ctl` cases of `Vt102Emulation::processToken` (a = cc + '@').
Values outside the switch fall to its default (`reportDecodingError`). -/
def processTokenCtl (st : EmuState) (a : Nat) : EmuState :=
  if a == 0x40 then st                                        -- NUL
  else if a == 0x41 then st                                   -- SOH
  else if a == 0x42 then st                                   -- STX
  else if a == 0x43 then st                                   -- ETX
  else if a == 0x44 then st                                   -- EOT
  else if a == 0x45 then reportAnswerBackOp st                -- ENQ
  else if a == 0x46 then st                                   -- ACK
  else if a == 0x47 then st.emit .bell                        -- BEL
  else if a == 0x48 then st.screenOp .backspace               -- BS
  else if a == 0x49 then st.screenOp (.tab 1)                 -- HT (default argument)
  else if a == 0x4a then st.screenOp .newLine                 -- LF
  else if a == 0x4b then st.screenOp .newLine                 -- VT
  else if a == 0x4c then st.screenOp .newLine                 -- FF
  else if a == 0x4d then st.screenOp .toStartOfLine           -- CR
  else if a == 0x4e then useCharset st 1                      -- SO
  else if a == 0x4f then useCharset st 0                      -- SI
  else if a == 0x50 then st
  else if a == 0x51 then st
  else if a == 0x52 then st
  else if a == 0x53 then st
  else if a == 0x54 then st
  else if a == 0x55 then st
  else if a == 0x56 then st
  else if a == 0x57 then st
  else if a == 0x58 then st.screenOp (.displayCharacter 0x2592)  -- CAN
  else if a == 0x59 then st                                   -- EM
  else if a == 0x5a then st.screenOp (.displayCharacter 0x2592)  -- SUB
  else if a == 0x5b then st                                   -- ESC (cannot be seen here)
  else if a == 0x5c then st
  else if a == 0x5d then st
  else if a == 0x5e then st
  else if a == 0x5f then st
  else reportDecodingErrorCall st

/-- The `token_esc` cases of `processToken`. -/
def processTokenEsc (st : EmuState) (a : Nat) : EmuState :=
  if a == 0x44 then st.screenOp .index
  else if a == 0x45 then st.screenOp .nextLine
  else if a == 0x48 then st.screenOp (.changeTabStop true)
  else if a == 0x4d then st.screenOp .reverseIndex
  else if a == 0x5a then reportTerminalType st
  else if a == 0x63 then reset st
  else if a == 0x6e then useCharset st 2
  else if a == 0x6f then useCharset st 3
  else if a == 0x37 then saveCursor st
  else if a == 0x38 then restoreCursor st
  else if a == 0x3d then setMode st .AppKeyPad
  else if a == 0x3e then resetMode st .AppKeyPad
  else if a == 0x3c then setMode st .Ansi
  else reportDecodingErrorCall st

/-- The `token_esc_cs` cases of `processToken`. -/
def processTokenEscCs (st : EmuState) (a b : Nat) : EmuState :=
  if a == 0x28 && b == 0x30 then setCharset st 0 0x30
  else if a == 0x28 && b == 0x41 then setCharset st 0 0x41
  else if a == 0x28 && b == 0x42 then setCharset st 0 0x42
  else if a == 0x29 && b == 0x30 then setCharset st 1 0x30
  else if a == 0x29 && b == 0x41 then setCharset st 1 0x41
  else if a == 0x29 && b == 0x42 then setCharset st 1 0x42
  else if a == 0x2a && b == 0x30 then setCharset st 2 0x30
  else if a == 0x2a && b == 0x41 then setCharset st 2 0x41
  else if a == 0x2a && b == 0x42 then setCharset st 2 0x42
  else if a == 0x2b && b == 0x30 then setCharset st 3 0x30
  else if a == 0x2b && b == 0x41 then setCharset st 3 0x41
  else if a == 0x2b && b == 0x42 then setCharset st 3 0x42
  else if a == 0x25 && b == 0x47 then st.emit (.setCodecUtf8 true)
  else if a == 0x25 && b == 0x40 then st.emit (.setCodecUtf8 false)
  else reportDecodingErrorCall st

/-- The `token_esc_de` cases of `processToken`. -/
def processTokenEscDe (st : EmuState) (a : Nat) : EmuState :=
  if a == 0x33 then
    let st := st.screenOp (.setLineProperty LINE_DOUBLEWIDTH true)
    let st := st.screenOp (.setLineProperty LINE_DOUBLEHEIGHT_TOP true)
    st.screenOp (.setLineProperty LINE_DOUBLEHEIGHT_BOTTOM false)
  else if a == 0x34 then
    let st := st.screenOp (.setLineProperty LINE_DOUBLEWIDTH true)
    let st := st.screenOp (.setLineProperty LINE_DOUBLEHEIGHT_TOP false)
    st.screenOp (.setLineProperty LINE_DOUBLEHEIGHT_BOTTOM true)
  else if a == 0x35 then
    let st := st.screenOp (.setLineProperty LINE_DOUBLEWIDTH false)
    let st := st.screenOp (.setLineProperty LINE_DOUBLEHEIGHT_TOP false)
    st.screenOp (.setLineProperty LINE_DOUBLEHEIGHT_BOTTOM false)
  else if a == 0x36 then
    let st := st.screenOp (.setLineProperty LINE_DOUBLEWIDTH true)
    let st := st.screenOp (.setLineProperty LINE_DOUBLEHEIGHT_TOP false)
    st.screenOp (.setLineProperty LINE_DOUBLEHEIGHT_BOTTOM false)
  else if a == 0x38 then st.screenOp .helpAlign
  else reportDecodingErrorCall st

/-- The `token_csi_ps` cases of `processToken`. -/
def processTokenCsiPs (st : EmuState) (a n : Nat) (p q : Int) : EmuState :=
  if a == 0x74 && n == 8 then (setImageSize st p q).emit (.imageResizeRequest q p)
  else if a == 0x74 && n == 18 then reportSize st
  else if a == 0x74 && n == 28 then st
  else if a == 0x74 && n == 22 then st
  else if a == 0x74 && n == 23 then st
  else if a == 0x4b && n == 0 then st.screenOp .clearToEndOfLine
  else if a == 0x4b && n == 1 then st.screenOp .clearToBeginOfLine
  else if a == 0x4b && n == 2 then st.screenOp .clearEntireLine
  else if a == 0x4a && n == 0 then st.screenOp .clearToEndOfScreen
  else if a == 0x4a && n == 1 then st.screenOp .clearToBeginOfScreen
  else if a == 0x4a && n == 2 then st.screenOp .clearEntireScreen
  else if a == 0x4a && n == 3 then st.emit .clearHistory
  else if a == 0x67 && n == 0 then st.screenOp (.changeTabStop false)
  else if a == 0x67 && n == 3 then st.screenOp .clearTabStops
  else if a == 0x68 && n == 4 then st.screenOp (.setMode .Insert)
  else if a == 0x68 && n == 20 then setMode st .NewLine
  else if a == 0x69 && n == 0 then st
  else if a == 0x6c && n == 4 then st.screenOp (.resetMode .Insert)
  else if a == 0x6c && n == 20 then resetMode st .NewLine
  else if a == 0x73 && n == 0 then saveCursor st
  else if a == 0x75 && n == 0 then restoreCursor st
  else if a == 0x6d && n == 0 then st.screenOp .setDefaultRendition
  else if a == 0x6d && n == 1 then st.screenOp (.setRendition RE_BOLD)
  else if a == 0x6d && n == 2 then st.screenOp (.setRendition RE_FAINT)
  else if a == 0x6d && n == 3 then st.screenOp (.setRendition RE_ITALIC)
  else if a == 0x6d && n == 4 then st.screenOp (.setRendition RE_UNDERLINE)
  else if a == 0x6d && n == 5 then st.screenOp (.setRendition RE_BLINK)
  else if a == 0x6d && n == 7 then st.screenOp (.setRendition RE_REVERSE)
  else if a == 0x6d && n == 8 then st.screenOp (.setRendition RE_CONCEAL)
  else if a == 0x6d && n == 9 then st.screenOp (.setRendition RE_STRIKEOUT)
  else if a == 0x6d && n == 53 then st.screenOp (.setRendition RE_OVERLINE)
  else if a == 0x6d && n == 10 then st
  else if a == 0x6d && n == 11 then st
  else if a == 0x6d && n == 12 then st
  else if a == 0x6d && n == 21 then st.screenOp (.resetRendition RE_BOLD)
  else if a == 0x6d && n == 22 then
    (st.screenOp (.resetRendition RE_BOLD)).screenOp (.resetRendition RE_FAINT)
  else if a == 0x6d && n == 23 then st.screenOp (.resetRendition RE_ITALIC)
  else if a == 0x6d && n == 24 then st.screenOp (.resetRendition RE_UNDERLINE)
  else if a == 0x6d && n == 25 then st.screenOp (.resetRendition RE_BLINK)
  else if a == 0x6d && n == 27 then st.screenOp (.resetRendition RE_REVERSE)
  else if a == 0x6d && n == 28 then st.screenOp (.resetRendition RE_CONCEAL)
  else if a == 0x6d && n == 29 then st.screenOp (.resetRendition RE_STRIKEOUT)
  else if a == 0x6d && n == 55 then st.screenOp (.resetRendition RE_OVERLINE)
  else if a == 0x6d && n == 30 then st.screenOp (.setForeColor COLOR_SPACE_SYSTEM 0)
  else if a == 0x6d && n == 31 then st.screenOp (.setForeColor COLOR_SPACE_SYSTEM 1)
  else if a == 0x6d && n == 32 then st.screenOp (.setForeColor COLOR_SPACE_SYSTEM 2)
  else if a == 0x6d && n == 33 then st.screenOp (.setForeColor COLOR_SPACE_SYSTEM 3)
  else if a == 0x6d && n == 34 then st.screenOp (.setForeColor COLOR_SPACE_SYSTEM 4)
  else if a == 0x6d && n == 35 then st.screenOp (.setForeColor COLOR_SPACE_SYSTEM 5)
  else if a == 0x6d && n == 36 then st.screenOp (.setForeColor COLOR_SPACE_SYSTEM 6)
  else if a == 0x6d && n == 37 then st.screenOp (.setForeColor COLOR_SPACE_SYSTEM 7)
  else if a == 0x6d && n == 38 then st.screenOp (.setForeColor p q)
  else if a == 0x6d && n == 39 then st.screenOp (.setForeColor COLOR_SPACE_DEFAULT 0)
  else if a == 0x6d && n == 40 then st.screenOp (.setBackColor COLOR_SPACE_SYSTEM 0)
  else if a == 0x6d && n == 41 then st.screenOp (.setBackColor COLOR_SPACE_SYSTEM 1)
  else if a == 0x6d && n == 42 then st.screenOp (.setBackColor COLOR_SPACE_SYSTEM 2)
  else if a == 0x6d && n == 43 then st.screenOp (.setBackColor COLOR_SPACE_SYSTEM 3)
  else if a == 0x6d && n == 44 then st.screenOp (.setBackColor COLOR_SPACE_SYSTEM 4)
  else if a == 0x6d && n == 45 then st.screenOp (.setBackColor COLOR_SPACE_SYSTEM 5)
  else if a == 0x6d && n == 46 then st.screenOp (.setBackColor COLOR_SPACE_SYSTEM 6)
  else if a == 0x6d && n == 47 then st.screenOp (.setBackColor COLOR_SPACE_SYSTEM 7)
  else if a == 0x6d && n == 48 then st.screenOp (.setBackColor p q)
  else if a == 0x6d && n == 49 then st.screenOp (.setBackColor COLOR_SPACE_DEFAULT 1)
  else if a == 0x6d && n == 90 then st.screenOp (.setForeColor COLOR_SPACE_SYSTEM 8)
  else if a == 0x6d && n == 91 then st.screenOp (.setForeColor COLOR_SPACE_SYSTEM 9)
  else if a == 0x6d && n == 92 then st.screenOp (.setForeColor COLOR_SPACE_SYSTEM 10)
  else if a == 0x6d && n == 93 then st.screenOp (.setForeColor COLOR_SPACE_SYSTEM 11)
  else if a == 0x6d && n == 94 then st.screenOp (.setForeColor COLOR_SPACE_SYSTEM 12)
  else if a == 0x6d && n == 95 then st.screenOp (.setForeColor COLOR_SPACE_SYSTEM 13)
  else if a == 0x6d && n == 96 then st.screenOp (.setForeColor COLOR_SPACE_SYSTEM 14)
  else if a == 0x6d && n == 97 then st.screenOp (.setForeColor COLOR_SPACE_SYSTEM 15)
  else if a == 0x6d && n == 100 then st.screenOp (.setBackColor COLOR_SPACE_SYSTEM 8)
  else if a == 0x6d && n == 101 then st.screenOp (.setBackColor COLOR_SPACE_SYSTEM 9)
  else if a == 0x6d && n == 102 then st.screenOp (.setBackColor COLOR_SPACE_SYSTEM 10)
  else if a == 0x6d && n == 103 then st.screenOp (.setBackColor COLOR_SPACE_SYSTEM 11)
  else if a == 0x6d && n == 104 then st.screenOp (.setBackColor COLOR_SPACE_SYSTEM 12)
  else if a == 0x6d && n == 105 then st.screenOp (.setBackColor COLOR_SPACE_SYSTEM 13)
  else if a == 0x6d && n == 106 then st.screenOp (.setBackColor COLOR_SPACE_SYSTEM 14)
  else if a == 0x6d && n == 107 then st.screenOp (.setBackColor COLOR_SPACE_SYSTEM 15)
  else if a == 0x6e && n == 5 then reportStatus st
  else if a == 0x6e && n == 6 then reportCursorPosition st
  else if a == 0x71 && n == 0 then st
  else if a == 0x71 && n == 1 then st
  else if a == 0x71 && n == 2 then st
  else if a == 0x71 && n == 3 then st
  else if a == 0x71 && n == 4 then st
  else if a == 0x78 && n == 0 then reportTerminalParms st 2
  else if a == 0x78 && n == 1 then reportTerminalParms st 3
  else reportDecodingErrorCall st

/-- The `token_csi_pn` cases of `processToken`. -/
def processTokenCsiPn (st : EmuState) (a : Nat) (p q : Int) : EmuState :=
  if a == 0x40 then st.screenOp (.insertChars p)
  else if a == 0x41 then st.screenOp (.cursorUp p)
  else if a == 0x42 then st.screenOp (.cursorDown p)
  else if a == 0x43 then st.screenOp (.cursorRight p)
  else if a == 0x44 then st.screenOp (.cursorLeft p)
  else if a == 0x45 then st.screenOp (.cursorNextLine p)
  else if a == 0x46 then st.screenOp (.cursorPreviousLine p)
  else if a == 0x47 then st.screenOp (.setCursorX p)
  else if a == 0x48 then st.screenOp (.setCursorYX p q)
  else if a == 0x49 then st.screenOp (.tab p)
  else if a == 0x4c then st.screenOp (.insertLines p)
  else if a == 0x4d then st.screenOp (.deleteLines p)
  else if a == 0x50 then st.screenOp (.deleteChars p)
  else if a == 0x53 then st.screenOp (.scrollUp p)
  else if a == 0x54 then st.screenOp (.scrollDown p)
  else if a == 0x58 then st.screenOp (.eraseChars p)
  else if a == 0x5a then st.screenOp (.backtab p)
  else if a == 0x62 then st.screenOp (.repeatChars p)
  else if a == 0x63 then reportTerminalType st
  else if a == 0x64 then st.screenOp (.setCursorY p)
  else if a == 0x66 then st.screenOp (.setCursorYX p q)
  else if a == 0x72 then st.bothScreens (.setMargins p q)
  else if a == 0x79 then st
  else reportDecodingErrorCall st

/-- The `token_csi_pr` cases of `processToken`. -/
def processTokenCsiPr (st : EmuState) (a n : Nat) : EmuState :=
  if a == 0x68 && n == 1 then setMode st .AppCuKeys
  else if a == 0x6c && n == 1 then resetMode st .AppCuKeys
  else if a == 0x73 && n == 1 then saveMode st .AppCuKeys
  else if a == 0x72 && n == 1 then restoreMode st .AppCuKeys
  else if a == 0x6c && n == 2 then resetMode st .Ansi
  else if a == 0x68 && n == 3 then setMode st .Col132
  else if a == 0x6c && n == 3 then resetMode st .Col132
  else if a == 0x68 && n == 4 then st
  else if a == 0x6c && n == 4 then st
  else if a == 0x68 && n == 5 then st.screenOp (.setMode .Screen)
  else if a == 0x6c && n == 5 then st.screenOp (.resetMode .Screen)
  else if a == 0x68 && n == 6 then st.screenOp (.setMode .Origin)
  else if a == 0x6c && n == 6 then st.screenOp (.resetMode .Origin)
  else if a == 0x73 && n == 6 then st.screenOp (.saveMode .Origin)
  else if a == 0x72 && n == 6 then st.screenOp (.restoreMode .Origin)
  else if a == 0x68 && n == 7 then st.screenOp (.setMode .Wrap)
  else if a == 0x6c && n == 7 then st.screenOp (.resetMode .Wrap)
  else if a == 0x73 && n == 7 then st.screenOp (.saveMode .Wrap)
  else if a == 0x72 && n == 7 then st.screenOp (.restoreMode .Wrap)
  else if (a == 0x68 || a == 0x6c || a == 0x73 || a == 0x72) && n == 8 then st
  else if (a == 0x68 || a == 0x6c || a == 0x73 || a == 0x72) && n == 9 then st
  else if (a == 0x68 || a == 0x6c || a == 0x73 || a == 0x72) && n == 12 then st
  else if a == 0x68 && n == 25 then setMode st .Cursor
  else if a == 0x6c && n == 25 then resetMode st .Cursor
  else if a == 0x73 && n == 25 then saveMode st .Cursor
  else if a == 0x72 && n == 25 then restoreMode st .Cursor
  else if a == 0x68 && n == 40 then setMode st .Allow132Columns
  else if a == 0x6c && n == 40 then resetMode st .Allow132Columns
  else if (a == 0x68 || a == 0x6c || a == 0x73 || a == 0x72) && n == 41 then st
  else if a == 0x68 && n == 47 then setMode st .AppScreen
  else if a == 0x6c && n == 47 then resetMode st .AppScreen
  else if a == 0x73 && n == 47 then saveMode st .AppScreen
  else if a == 0x72 && n == 47 then restoreMode st .AppScreen
  else if (a == 0x68 || a == 0x6c || a == 0x73 || a == 0x72) && n == 67 then st
  else if a == 0x68 && n == 1000 then setMode st .Mouse1000
  else if a == 0x6c && n == 1000 then resetMode st .Mouse1000
  else if a == 0x73 && n == 1000 then saveMode st .Mouse1000
  else if a == 0x72 && n == 1000 then restoreMode st .Mouse1000
  else if a == 0x68 && n == 1001 then st
  else if a == 0x6c && n == 1001 then resetMode st .Mouse1001
  else if a == 0x73 && n == 1001 then st
  else if a == 0x72 && n == 1001 then st
  else if a == 0x68 && n == 1002 then setMode st .Mouse1002
  else if a == 0x6c && n == 1002 then resetMode st .Mouse1002
  else if a == 0x73 && n == 1002 then saveMode st .Mouse1002
  else if a == 0x72 && n == 1002 then restoreMode st .Mouse1002
  else if a == 0x68 && n == 1003 then setMode st .Mouse1003
  else if a == 0x6c && n == 1003 then resetMode st .Mouse1003
  else if a == 0x73 && n == 1003 then saveMode st .Mouse1003
  else if a == 0x72 && n == 1003 then restoreMode st .Mouse1003
  else if a == 0x68 && n == 1004 then { st with reportFocusEvents := true }
  else if a == 0x6c && n == 1004 then { st with reportFocusEvents := false }
  else if a == 0x68 && n == 1005 then setMode st .Mouse1005
  else if a == 0x6c && n == 1005 then resetMode st .Mouse1005
  else if a == 0x73 && n == 1005 then saveMode st .Mouse1005
  else if a == 0x72 && n == 1005 then restoreMode st .Mouse1005
  else if a == 0x68 && n == 1006 then setMode st .Mouse1006
  else if a == 0x6c && n == 1006 then resetMode st .Mouse1006
  else if a == 0x73 && n == 1006 then saveMode st .Mouse1006
  else if a == 0x72 && n == 1006 then restoreMode st .Mouse1006
  else if a == 0x68 && n == 1007 then setMode st .Mouse1007
  else if a == 0x6c && n == 1007 then resetMode st .Mouse1007
  else if a == 0x73 && n == 1007 then saveMode st .Mouse1007
  else if a == 0x72 && n == 1007 then restoreMode st .Mouse1007
  else if a == 0x68 && n == 1015 then setMode st .Mouse1015
  else if a == 0x6c && n == 1015 then resetMode st .Mouse1015
  else if a == 0x73 && n == 1015 then saveMode st .Mouse1015
  else if a == 0x72 && n == 1015 then restoreMode st .Mouse1015
  else if a == 0x68 && n == 1034 then st
  else if a == 0x68 && n == 1047 then setMode st .AppScreen
  else if a == 0x6c && n == 1047 then
    resetMode (st.emit (.screen 1 .clearEntireScreen)) .AppScreen
  else if a == 0x73 && n == 1047 then saveMode st .AppScreen
  else if a == 0x72 && n == 1047 then restoreMode st .AppScreen
  else if a == 0x68 && n == 1048 then saveCursor st
  else if a == 0x6c && n == 1048 then restoreCursor st
  else if a == 0x73 && n == 1048 then saveCursor st
  else if a == 0x72 && n == 1048 then restoreCursor st
  else if a == 0x68 && n == 1049 then
    setMode ((saveCursor st).emit (.screen 1 .clearEntireScreen)) .AppScreen
  else if a == 0x6c && n == 1049 then restoreCursor (resetMode st .AppScreen)
  else if a == 0x68 && n == 2004 then setMode st .BracketedPaste
  else if a == 0x6c && n == 2004 then resetMode st .BracketedPaste
  else if a == 0x73 && n == 2004 then saveMode st .BracketedPaste
  else if a == 0x72 && n == 2004 then restoreMode st .BracketedPaste
  else reportDecodingErrorCall st

/-- The `token_csi_sp` / `token_csi_psp` cases of `processToken`. -/
def processTokenCsiSp (st : EmuState) (a : Nat) : EmuState :=
  if a == 0x71 then st.emit (.setCursorStyleRequest BlockCursor true)
  else reportDecodingErrorCall st

def processTokenCsiPsp (st : EmuState) (a n : Nat) : EmuState :=
  if a == 0x71 && n == 0 then st.emit .resetCursorStyleRequest
  else if a == 0x71 && n == 1 then st.emit (.setCursorStyleRequest BlockCursor true)
  else if a == 0x71 && n == 2 then st.emit (.setCursorStyleRequest BlockCursor false)
  else if a == 0x71 && n == 3 then st.emit (.setCursorStyleRequest UnderlineCursor true)
  else if a == 0x71 && n == 4 then st.emit (.setCursorStyleRequest UnderlineCursor false)
  else if a == 0x71 && n == 5 then st.emit (.setCursorStyleRequest IBeamCursor true)
  else if a == 0x71 && n == 6 then st.emit (.setCursorStyleRequest IBeamCursor false)
  else reportDecodingErrorCall st

/-- The `token_csi_pe` case of `processToken`. -/
def processTokenCsiPe (st : EmuState) (a : Nat) : EmuState :=
  if a == 0x70 then st
  else reportDecodingErrorCall st

/-- The `token_vt52` cases of `processToken`. -/
def processTokenVt52 (st : EmuState) (a : Nat) (p q : Int) : EmuState :=
  if a == 0x41 then st.screenOp (.cursorUp 1)
  else if a == 0x42 then st.screenOp (.cursorDown 1)
  else if a == 0x43 then st.screenOp (.cursorRight 1)
  else if a == 0x44 then st.screenOp (.cursorLeft 1)
  else if a == 0x46 then setAndUseCharset st 0 0x30
  else if a == 0x47 then setAndUseCharset st 0 0x42
  else if a == 0x48 then st.screenOp (.setCursorYX 1 1)
  else if a == 0x49 then st.screenOp .reverseIndex
  else if a == 0x4a then st.screenOp .clearToEndOfScreen
  else if a == 0x4b then st.screenOp .clearToEndOfLine
  else if a == 0x59 then st.screenOp (.setCursorYX (p - 31) (q - 31))
  else if a == 0x5a then reportTerminalType st
  else if a == 0x3c then setMode st .Ansi
  else if a == 0x3d then setMode st .AppKeyPad
  else if a == 0x3e then resetMode st .AppKeyPad
  else reportDecodingErrorCall st

/-- The `token_csi_pq` / `token_csi_pg` cases of `processToken`. -/
def processTokenCsiPq (st : EmuState) (a : Nat) : EmuState :=
  if a == 0x63 then reportTertiaryAttributes st
  else reportDecodingErrorCall st

def processTokenCsiPg (st : EmuState) (a : Nat) : EmuState :=
  if a == 0x63 then reportSecondaryAttributes st
  else reportDecodingErrorCall st

/-- Source `Vt102Emulation::processToken`: the giant switch, organized by token
kind.  Any (token, value) combination not listed in the per-kind helpers
falls to the switch's default, which calls `reportDecodingError`. -/
def processToken (st : EmuState) (t : Token) (p q : Int) : EmuState :=
  match t with
  | .chr => st.screenOp (.displayCharacter p)
  | .ctl a => processTokenCtl st a
  | .esc a => processTokenEsc st a
  | .escCs a b => processTokenEscCs st a b
  | .escDe a => processTokenEscDe st a
  | .csiPs a n => processTokenCsiPs st a n p q
  | .csiPn a => processTokenCsiPn st a p q
  | .csiPr a n => processTokenCsiPr st a n
  | .vt52 a => processTokenVt52 st a p q
  | .csiPg a => processTokenCsiPg st a
  | .csiPe a => processTokenCsiPe st a
  | .csiSp a => processTokenCsiSp st a
  | .csiPsp a n => processTokenCsiPsp st a n
  | .csiPq a => processTokenCsiPq st a

/-! ### The scanner -/

/-- The final `for (i = 0; i <= argc; i++)` dispatch loop of `receiveChars`
for CSI finals.  `i` advances by 5 (direct-color SGR) or 3 (256-color SGR)
or 1; `argc`, the token buffer and its position are loop-invariant (none of
the dispatched cases touch them), so reading them from the current state is
equivalent to the source's local copies.  One fuel unit per iteration;
callers pass `argc + 1`. -/
def csiLoop : Nat → EmuState → Nat → Nat → EmuState
  | 0, st, _, _ => st
  | fuel + 1, st, cc, i =>
    if i ≤ st.argc then
      if epp st then
        csiLoop fuel (processToken st (tokenCsiPr cc (st.argv i)) 0 0) cc (i + 1)
      else if eeq st then
        csiLoop fuel (processToken st (tokenCsiPq cc) 0 0) cc (i + 1)
      else if egt st then
        csiLoop fuel (processToken st (tokenCsiPg cc) 0 0) cc (i + 1)
      else if cc == 0x6d && decide (4 ≤ st.argc - i) &&
          (st.argv i == 38 || st.argv i == 48) && st.argv (i + 1) == 2 then
        csiLoop fuel
          (processToken st (tokenCsiPs cc (st.argv i)) COLOR_SPACE_RGB
            (((st.argv (i + 2)) <<< 16 ||| (st.argv (i + 3)) <<< 8 ||| st.argv (i + 4)) : Nat))
          cc (i + 5)
      else if cc == 0x6d && decide (2 ≤ st.argc - i) &&
          (st.argv i == 38 || st.argv i == 48) && st.argv (i + 1) == 5 then
        csiLoop fuel
          (processToken st (tokenCsiPs cc (st.argv i)) COLOR_SPACE_x256 (st.argv (i + 2)))
          cc (i + 3)
      else if decide (st.tokenBufferPos < 2) ||
          !(charClass (st.tokenBuffer (st.tokenBufferPos - 2)) &&& INT == INT) then
        csiLoop fuel (processToken st (tokenCsiPs cc (st.argv i)) 0 0) cc (i + 1)
      else csiLoop fuel st cc (i + 1)
    else st

mutual

/-- One incoming code point of `Vt102Emulation::receiveChars` (the loop
body).  `fuel` bounds the source's bounded self-recursion (the 8-bit-CSI
rewrite re-feeds `'['`, the OSC `ESC <other>` terminator re-feeds the
pending character); each re-entry strictly decreases it. -/
def processChar : Nat → EmuState → Nat → EmuState
  | 0, st, _ => st
  | fuel + 1, st, cc =>
    if cc = 127 then st                                  -- DEL: VT100 ignore
    else if ces cc CTL then
      if osc st then
        -- inside OSC swallow all controls but BEL and ESC
        if cc == 27 || cc == 7 then scanToken fuel (addToCurrentToken st cc) cc
        else st
      else
        let st1 := if cc == 0x18 || cc == 0x1a || cc == 27 then resetTokenizer st else st
        if cc == 27 then scanToken fuel (addToCurrentToken st1 cc) cc
        else processToken st1 (tokenCtl (cc + 0x40)) 0 0
    else scanToken fuel (addToCurrentToken st cc) cc

/-- The recognition cascade of `receiveChars`, operating on the state after
`addToCurrentToken(cc)`.  Conditions appear in source order; the OSC-group
tests carry their enclosing `p > 2 && s[1] == ']'` guard. -/
def scanToken : Nat → EmuState → Nat → EmuState
  | 0, st, _ => st
  | fuel + 1, st, cc =>
    if getMode st .Ansi then
      if lec st 1 0 27 then st
      else if lec st 1 0 155 then
        -- 8-bit CSI: rewrite s[0] to ESC and re-feed '['
        processChar fuel
          { st with tokenBuffer := fun i => if i = 0 then 27 else st.tokenBuffer i } 0x5b
      else if les st 2 1 GRP then st
      else if decide (2 < st.tokenBufferPos) && st.tokenBuffer 1 == 0x5d &&
          st.tokenBuffer (st.tokenBufferPos - 2) == 27 &&
          st.tokenBuffer (st.tokenBufferPos - 1) == 0x5c then
        -- <ESC> ']' ... <ESC> backslash
        let st := if st.tokenBuffer 2 == 0x38 then toggleUrlInput st else st
        resetTokenizer (processSessionAttributeRequest st (st.tokenBufferPos - 1))
      else if decide (2 < st.tokenBufferPos) && st.tokenBuffer 1 == 0x5d &&
          st.tokenBuffer (st.tokenBufferPos - 2) == 27 then
        -- <ESC> ']' ... <ESC> + one character for reprocessing
        processChar fuel
          (resetTokenizer (processSessionAttributeRequest st (st.tokenBufferPos - 1))) cc
      else if decide (2 < st.tokenBufferPos) && st.tokenBuffer 1 == 0x5d &&
          st.tokenBuffer (st.tokenBufferPos - 1) == 7 then
        -- <ESC> ']' ... <BEL>
        resetTokenizer (processSessionAttributeRequest st st.tokenBufferPos)
      else if osc st then st
      else if lec st 3 2 0x3f then st
      else if lec st 3 2 0x3d then st
      else if lec st 3 2 0x3e then st
      else if lec st 3 2 0x21 then st
      else if lec st 3 2 0x20 then st
      else if lec st 4 3 0x20 then st
      else if lun st cc then
        resetTokenizer (processToken st tokenChr (applyCharset st cc) 0)
      else if dcs st then st    -- eat unsupported DCS
      else if lec st 2 0 27 then
        resetTokenizer (processToken st (tokenEsc (st.tokenBuffer 1)) 0 0)
      else if les st 3 1 SCS then
        resetTokenizer (processToken st (tokenEscCs (st.tokenBuffer 1) (st.tokenBuffer 2)) 0 0)
      else if lec st 3 1 0x23 then
        resetTokenizer (processToken st (tokenEscDe (st.tokenBuffer 2)) 0 0)
      else if eps st cc CPN then
        resetTokenizer (processToken st (tokenCsiPn cc) (st.argv 0) (st.argv 1))
      else if eps st cc CPS then
        resetTokenizer (processToken st (tokenCsiPs cc (st.argv 0)) (st.argv 1) (st.argv 2))
      else if epe st then resetTokenizer (processToken st (tokenCsiPe cc) 0 0)
      else if esp st then resetTokenizer (processToken st (tokenCsiSp cc) 0 0)
      else if epsp st then
        resetTokenizer (processToken st (tokenCsiPsp cc (st.argv 0)) 0 0)
      else if ees st cc DIG then addDigit st (cc - 0x30)
      else if eec st cc 0x3b then addArgument st
      else if ees st cc INT then st
      else if decide (3 ≤ st.tokenBufferPos) && cc == 0x79 &&
          st.tokenBuffer (st.tokenBufferPos - 2) == 0x2a then
        resetTokenizer (processChecksumRequest st)
      else resetTokenizer (csiLoop (st.argc + 1) st cc 0)
    else
      -- VT52 mode
      if lec st 1 0 27 then st
      else if les st 1 0 CHR then
        resetTokenizer (processToken st tokenChr (st.tokenBuffer 0) 0)
      else if lec st 2 1 0x59 then st
      else if lec st 3 1 0x59 then st
      else if decide (st.tokenBufferPos < 4) then
        resetTokenizer (processToken st (tokenVt52 (st.tokenBuffer 1)) 0 0)
      else
        resetTokenizer
          (processToken st (tokenVt52 (st.tokenBuffer 1)) (st.tokenBuffer 2) (st.tokenBuffer 3))

end

/-- Source `Vt102Emulation::receiveChars`: fold the code points through
`processChar`.  Fuel 8 strictly dominates the re-entry depth (an OSC re-feed
can at most trigger the 8-bit-CSI rewrite, which re-feeds one plain
character). -/
def receiveChars (st : EmuState) (chars : List Nat) : EmuState :=
  chars.foldl (processChar 8) st

/-- The tokenizer bounds invariant of spec section 8: the argument count,
every accumulated argument, and the buffer position stay within their
compile-time bounds. -/
def TokInv (st : EmuState) : Prop :=
  st.argc ≤ MAXARGS - 1 ∧ (∀ i, st.argv i ≤ MAX_ARGUMENT) ∧
    st.tokenBufferPos ≤ MAX_TOKEN_LENGTH

/-- A state with exactly Mouse1002 active (dragging-only mouse tracking). -/
def mouse1002State : EmuState :=
  { defaultState with currentModes := fun m => m = .Mouse1002 }

/-- A state whose two screens have different active charset slots: primary
screen current, screen 0's active slot 0, screen 1's active slot 1. -/
def splitCuState : EmuState :=
  { defaultState with charset1 := { freshCharset with cu_cs := 1 } }

/-- A charset state with the DEC graphics charset designated and active in
slot 0 (as `useCharset` leaves it after `ESC ( 0`). -/
def graphicsCS : CharsetState :=
  { cu_cs := 0, charset := fun _ => 0x30, sa_graphic := false, sa_pound := false,
    graphic := true, pound := false }

/-- The number of `reportDecodingError` calls recorded in an event trace. -/
def countRDE : List Event → Nat
  | [] => 0
  | .reportDecodingError :: es => countRDE es + 1
  | _ :: es => countRDE es

/-! ### Projection lemmas for the mode registry -/

theorem currentModes_ite (c : Prop) [Decidable c] (a b : EmuState) :
    (if c then a else b).currentModes = if c then a.currentModes else b.currentModes := by
  split <;> rfl

theorem savedModes_ite (c : Prop) [Decidable c] (a b : EmuState) :
    (if c then a else b).savedModes = if c then a.savedModes else b.savedModes := by
  split <;> rfl

theorem currentModes_emit (st : EmuState) (e : Event) :
    (st.emit e).currentModes = st.currentModes := rfl

theorem currentModes_screenOp (st : EmuState) (op : ScreenOp) :
    (st.screenOp op).currentModes = st.currentModes := rfl

theorem currentModes_bothScreens (st : EmuState) (op : ScreenOp) :
    (st.bothScreens op).currentModes = st.currentModes := rfl

theorem currentModes_setScreen (st : EmuState) (n : Nat) :
    (setScreen st n).currentModes = st.currentModes := rfl

theorem currentModes_setImageSize (st : EmuState) (l c : Int) :
    (setImageSize st l c).currentModes = st.currentModes := rfl

theorem currentModes_clearScreenAndSetColumns (st : EmuState) (c : Int) :
    (clearScreenAndSetColumns st c).currentModes = st.currentModes := rfl

theorem currentModes_saveMode (st : EmuState) (m : Mode) :
    (saveMode st m).currentModes = st.currentModes := rfl

theorem currentModes_resetCharset (st : EmuState) (n : Nat) :
    (resetCharset st n).currentModes = st.currentModes := by
  unfold resetCharset; split <;> rfl

theorem currentModes_resetTokenizer (st : EmuState) :
    (resetTokenizer st).currentModes = st.currentModes := rfl

theorem currentModes_setCurrentMode (st : EmuState) (m : Mode) (b : Bool) (x : Mode) :
    (setCurrentMode st m b).currentModes x = if x = m then b else st.currentModes x := rfl

theorem savedModes_emit (st : EmuState) (e : Event) :
    (st.emit e).savedModes = st.savedModes := rfl

theorem savedModes_screenOp (st : EmuState) (op : ScreenOp) :
    (st.screenOp op).savedModes = st.savedModes := rfl

theorem savedModes_bothScreens (st : EmuState) (op : ScreenOp) :
    (st.bothScreens op).savedModes = st.savedModes := rfl

theorem savedModes_setScreen (st : EmuState) (n : Nat) :
    (setScreen st n).savedModes = st.savedModes := rfl

theorem savedModes_setImageSize (st : EmuState) (l c : Int) :
    (setImageSize st l c).savedModes = st.savedModes := rfl

theorem savedModes_clearScreenAndSetColumns (st : EmuState) (c : Int) :
    (clearScreenAndSetColumns st c).savedModes = st.savedModes := rfl

theorem savedModes_setCurrentMode (st : EmuState) (m : Mode) (b : Bool) :
    (setCurrentMode st m b).savedModes = st.savedModes := rfl

theorem savedModes_setMode (st : EmuState) (m : Mode) :
    (setMode st m).savedModes = st.savedModes := by
  cases m <;>
    simp [setMode, Mode.forwardedToScreens, savedModes_ite, savedModes_setCurrentMode,
      savedModes_emit, savedModes_screenOp, savedModes_bothScreens, savedModes_setScreen,
      savedModes_clearScreenAndSetColumns, ite_self]

theorem savedModes_resetMode (st : EmuState) (m : Mode) :
    (resetMode st m).savedModes = st.savedModes := by
  cases m <;>
    simp [resetMode, Mode.forwardedToScreens, savedModes_ite, savedModes_setCurrentMode,
      savedModes_emit, savedModes_screenOp, savedModes_bothScreens, savedModes_setScreen,
      savedModes_clearScreenAndSetColumns, ite_self]


/-! ### Closed forms for `setMode` / `resetMode` on the current mode set -/


theorem currentModes_setMode (st : EmuState) (m x : Mode) :
    (setMode st m).currentModes x =
      if x = m then (if m = .Col132 then st.currentModes .Allow132Columns else true)
      else if m.isMouseTrack && x.isMouseTrack then false
      else if m.isMouseEnc && x.isMouseEnc then false
      else st.currentModes x := by
  cases m <;> cases x <;>
    simp [setMode, Mode.forwardedToScreens, Mode.isMouseTrack, Mode.isMouseEnc,
      currentModes_ite, ite_apply, currentModes_emit, currentModes_screenOp,
      currentModes_bothScreens, currentModes_setScreen,
      currentModes_clearScreenAndSetColumns, currentModes_setCurrentMode, getMode]

theorem currentModes_resetMode (st : EmuState) (m x : Mode) :
    (resetMode st m).currentModes x =
      if x = m then false
      else if m.isMouseTrack && x.isMouseTrack then false
      else st.currentModes x := by
  cases m <;> cases x <;>
    simp [resetMode, Mode.forwardedToScreens, Mode.isMouseTrack,
      currentModes_ite, ite_apply, ite_self, currentModes_emit, currentModes_screenOp,
      currentModes_bothScreens, currentModes_setScreen,
      currentModes_clearScreenAndSetColumns, currentModes_setCurrentMode, getMode]

/-! ### C1: mutual exclusivity of the mouse modes -/


theorem bitVal_true : bitVal true = 1 := rfl

theorem bitVal_false : bitVal false = 0 := rfl

theorem bitVal_le_one (b : Bool) : bitVal b ≤ 1 := by cases b <;> simp [bitVal]



theorem MouseExclusive_setMode (st : EmuState) (m : Mode) (h : MouseExclusive st) :
    MouseExclusive (setMode st m) := by
  obtain ⟨h1, h2⟩ := h
  unfold MouseExclusive mouseTrackCount mouseEncCount at *
  cases m <;>
    simp only [currentModes_setMode, Mode.isMouseTrack, Mode.isMouseEnc] <;>
    simp [bitVal_true, bitVal_false] <;>
    omega

theorem MouseExclusive_resetMode (st : EmuState) (m : Mode) (h : MouseExclusive st) :
    MouseExclusive (resetMode st m) := by
  obtain ⟨h1, h2⟩ := h
  unfold MouseExclusive mouseTrackCount mouseEncCount at *
  cases m <;>
    simp only [currentModes_resetMode, Mode.isMouseTrack] <;>
    simp [bitVal_true, bitVal_false] <;>
    omega

theorem MouseExclusive_saveMode (st : EmuState) (m : Mode) (h : MouseExclusive st) :
    MouseExclusive (saveMode st m) := h

theorem MouseExclusive_restoreMode (st : EmuState) (m : Mode) (h : MouseExclusive st) :
    MouseExclusive (restoreMode st m) := by
  unfold restoreMode
  split
  · exact MouseExclusive_setMode st m h
  · exact MouseExclusive_resetMode st m h


theorem MouseExclusive_applyModeOp (st : EmuState) (op : ModeOp)
    (h : MouseExclusive st) : MouseExclusive (applyModeOp st op) := by
  cases op with
  | set m => exact MouseExclusive_setMode st m h
  | reset m => exact MouseExclusive_resetMode st m h
  | save m => exact MouseExclusive_saveMode st m h
  | restore m => exact MouseExclusive_restoreMode st m h

theorem MouseExclusive_foldl (ops : List ModeOp) (st : EmuState)
    (h : MouseExclusive st) : MouseExclusive (List.foldl applyModeOp st ops) := by
  induction ops generalizing st with
  | nil => exact h
  | cons op ops ih => exact ih (applyModeOp st op) (MouseExclusive_applyModeOp st op h)

/-- C1: starting from the initial state, after any sequence of `setMode`,
`resetMode`, `saveMode` and `restoreMode` operations (and these are exactly
the operations the CSI `?` h/l/s/r token dispatch performs on the mode
registry), at most one of the modes Mouse1000, Mouse1001, Mouse1002,
Mouse1003 is true in the current mode set, and at most one of Mouse1005,
Mouse1006, Mouse1015 is true. -/
theorem C1_mouse_mode_exclusivity (ops : List ModeOp) :
    MouseExclusive (List.foldl applyModeOp initState ops) :=
  MouseExclusive_foldl ops initState (by decide)


/-! ### C2: the frame of a core reset on the mode registry -/

/-- C2: after a core reset (ESC c / `reset()`), mode `Ansi` is true,
`Allow132Columns` and `Mouse1007` retain exactly the values they had before
the reset, and every other non-screen mode (132Columns, Mouse1000..1003,
Mouse1005, Mouse1006, Mouse1015, BracketedPaste, AppScreen, AppCuKeys,
AppKeyPad, NewLine) is returned to its default value false. -/
theorem C2_reset_mode_frame (st : EmuState) :
    getMode (reset st) .Ansi = true ∧
    getMode (reset st) .Allow132Columns = getMode st .Allow132Columns ∧
    getMode (reset st) .Mouse1007 = getMode st .Mouse1007 ∧
    getMode (reset st) .Col132 = false ∧
    getMode (reset st) .Mouse1000 = false ∧
    getMode (reset st) .Mouse1001 = false ∧
    getMode (reset st) .Mouse1002 = false ∧
    getMode (reset st) .Mouse1003 = false ∧
    getMode (reset st) .Mouse1005 = false ∧
    getMode (reset st) .Mouse1006 = false ∧
    getMode (reset st) .Mouse1015 = false ∧
    getMode (reset st) .BracketedPaste = false ∧
    getMode (reset st) .AppScreen = false ∧
    getMode (reset st) .AppCuKeys = false ∧
    getMode (reset st) .AppKeyPad = false ∧
    getMode (reset st) .NewLine = false := by
  refine ⟨?_, ?_, ?_, ?_, ?_, ?_, ?_, ?_, ?_, ?_, ?_, ?_, ?_, ?_, ?_, ?_⟩ <;>
    simp [reset, resetModes, getMode, currentModes_setMode, currentModes_resetMode,
      currentModes_saveMode, currentModes_resetCharset, currentModes_resetTokenizer,
      currentModes_emit, Mode.isMouseTrack, Mode.isMouseEnc]


/-! ### C5: save / restore round-trip for a single mode -/

theorem getMode_setMode_self (st : EmuState) (m : Mode) :
    getMode (setMode st m) m =
      (if m = .Col132 then st.currentModes .Allow132Columns else true) := by
  rw [getMode, currentModes_setMode]; simp

theorem getMode_resetMode_self (st : EmuState) (m : Mode) :
    getMode (resetMode st m) m = false := by
  rw [getMode, currentModes_resetMode]; simp

theorem savedModes_saveMode_self (st : EmuState) (m : Mode) :
    (saveMode st m).savedModes m = st.currentModes m := by
  simp [saveMode]

theorem allow_setMode (st : EmuState) (m : Mode) (h : m ≠ .Allow132Columns) :
    (setMode st m).currentModes .Allow132Columns = st.currentModes .Allow132Columns := by
  rw [currentModes_setMode]
  cases m <;> simp_all [Mode.isMouseTrack, Mode.isMouseEnc]

theorem allow_resetMode (st : EmuState) (m : Mode) (h : m ≠ .Allow132Columns) :
    (resetMode st m).currentModes .Allow132Columns = st.currentModes .Allow132Columns := by
  rw [currentModes_resetMode]
  cases m <;> simp_all [Mode.isMouseTrack]


theorem modeOpsOn_savedModes (m : Mode) (bs : List Bool) (st : EmuState) :
    (modeOpsOn m bs st).savedModes = st.savedModes := by
  induction bs generalizing st with
  | nil => rfl
  | cons b bs ih =>
      cases b
      · show (modeOpsOn m bs (resetMode st m)).savedModes = st.savedModes
        rw [ih, savedModes_resetMode]
      · show (modeOpsOn m bs (setMode st m)).savedModes = st.savedModes
        rw [ih, savedModes_setMode]

theorem modeOpsOn_allow (m : Mode) (bs : List Bool) (st : EmuState)
    (h : m ≠ .Allow132Columns) :
    (modeOpsOn m bs st).currentModes .Allow132Columns
      = st.currentModes .Allow132Columns := by
  induction bs generalizing st with
  | nil => rfl
  | cons b bs ih =>
      cases b
      · show (modeOpsOn m bs (resetMode st m)).currentModes .Allow132Columns = _
        rw [ih, allow_resetMode st m h]
      · show (modeOpsOn m bs (setMode st m)).currentModes .Allow132Columns = _
        rw [ih, allow_setMode st m h]

/-- C5 (amended): for every mode `m`, after `setMode(m); saveMode(m)`,
any intervening sequence of `setMode(m)` / `resetMode(m)`, and a final
`restoreMode(m)`, `getMode(m)` equals the value captured at `saveMode`; the
same holds for the sequence starting with `resetMode(m)`.  The captured
value is true for every mode except `132Columns`: there `setMode` is a
silent no-op when `Allow132Columns` is unset, and the captured value equals
`Allow132Columns` instead.  After `resetMode(m)` the captured value is
always false. -/
theorem C5_save_restore_roundtrip (st : EmuState) (m : Mode) (bs : List Bool) :
    (getMode (restoreMode (modeOpsOn m bs (saveMode (setMode st m) m)) m) m
        = getMode (setMode st m) m) ∧
    (getMode (restoreMode (modeOpsOn m bs (saveMode (resetMode st m) m)) m) m
        = getMode (resetMode st m) m) ∧
    (m ≠ .Col132 → getMode (setMode st m) m = true) ∧
    getMode (setMode st .Col132) .Col132 = getMode st .Allow132Columns ∧
    getMode (resetMode st m) m = false := by
  refine ⟨?_, ?_, ?_, ?_, ?_⟩
  · have hsaved : (modeOpsOn m bs (saveMode (setMode st m) m)).savedModes m
        = getMode (setMode st m) m := by
      rw [modeOpsOn_savedModes, savedModes_saveMode_self]; rfl
    rw [restoreMode, hsaved]
    cases hc : getMode (setMode st m) m
    · simp only [Bool.false_eq_true, if_false]
      exact getMode_resetMode_self _ m
    · simp only [if_true]
      by_cases hm : m = .Col132
      · subst hm
        rw [getMode_setMode_self] at hc ⊢
        simp only [if_pos rfl] at hc ⊢
        rw [modeOpsOn_allow _ _ _ (by simp), currentModes_saveMode,
          allow_setMode _ _ (by simp), hc]
      · rw [getMode_setMode_self, if_neg hm]
  · have hsaved : (modeOpsOn m bs (saveMode (resetMode st m) m)).savedModes m
        = false := by
      rw [modeOpsOn_savedModes, savedModes_saveMode_self]
      exact getMode_resetMode_self st m
    rw [restoreMode, hsaved, getMode_resetMode_self st m]
    simp only [Bool.false_eq_true, if_false]
    exact getMode_resetMode_self _ m
  · intro hm
    rw [getMode_setMode_self, if_neg hm]
  · rw [getMode_setMode_self, if_pos rfl]; rfl
  · exact getMode_resetMode_self st m

/-- Witness for C5: a concrete run (mode Mouse1000, intervening reset then
set) where the restored value is the captured true. -/
theorem C5_save_restore_roundtrip_witness :
    getMode (restoreMode (modeOpsOn .Mouse1000 [false, true]
        (saveMode (setMode defaultState .Mouse1000) .Mouse1000)) .Mouse1000) .Mouse1000
      = true := by
  have h := C5_save_restore_roundtrip defaultState .Mouse1000 [false, true]
  exact h.1.trans (h.2.2.1 (by decide))

/-- C5 counterexample: with `Allow132Columns` unset, `setMode(132Columns)`
is a silent no-op, so the value captured at `saveMode` is false — not true as
the claim states — and `getMode` after `restoreMode` is false. -/
theorem C5_counterexample :
    getMode (setMode defaultState .Col132) .Col132 = false ∧
    (saveMode (setMode defaultState .Col132) .Col132).savedModes .Col132 = false ∧
    getMode (restoreMode (saveMode (setMode defaultState .Col132) .Col132) .Col132)
        .Col132 = false := by
  decide


/-! ### C3: tokenizer bounds -/

theorem argc_ite (c : Prop) [Decidable c] (a b : EmuState) :
    (if c then a else b).argc = if c then a.argc else b.argc := by split <;> rfl

theorem argv_ite (c : Prop) [Decidable c] (a b : EmuState) :
    (if c then a else b).argv = if c then a.argv else b.argv := by split <;> rfl

theorem pos_ite (c : Prop) [Decidable c] (a b : EmuState) :
    (if c then a else b).tokenBufferPos =
      if c then a.tokenBufferPos else b.tokenBufferPos := by split <;> rfl

theorem TokInv_of_proj {st x : EmuState} (h1 : x.argc = st.argc) (h2 : x.argv = st.argv)
    (h3 : x.tokenBufferPos = st.tokenBufferPos) (h : TokInv st) : TokInv x := by
  unfold TokInv at *
  rw [h1, h2, h3]
  exact h

theorem TokInv_resetTokenizer (st : EmuState) (h : TokInv st) :
    TokInv (resetTokenizer st) := by
  obtain ⟨-, h2, -⟩ := h
  refine ⟨by simp [resetTokenizer, MAXARGS], ?_, by simp [resetTokenizer]⟩
  intro i
  simp only [resetTokenizer]
  split
  · exact Nat.zero_le _
  · split
    · exact Nat.zero_le _
    · exact h2 i

theorem TokInv_addDigit (st : EmuState) (d : Nat) (h : TokInv st) :
    TokInv (addDigit st d) := by
  obtain ⟨h1, h2, h3⟩ := h
  refine ⟨h1, ?_, h3⟩
  intro i
  simp only [addDigit]
  split
  · exact Nat.min_le_right _ _
  · exact h2 i

theorem TokInv_addArgument (st : EmuState) (h : TokInv st) :
    TokInv (addArgument st) := by
  obtain ⟨h1, h2, h3⟩ := h
  refine ⟨Nat.min_le_right _ _, ?_, h3⟩
  intro i
  simp only [addArgument]
  split
  · exact Nat.zero_le _
  · exact h2 i

theorem TokInv_addToCurrentToken (st : EmuState) (cc : Nat) (h : TokInv st) :
    TokInv (addToCurrentToken st cc) := by
  obtain ⟨h1, h2, h3⟩ := h
  refine ⟨h1, h2, ?_⟩
  simp only [addToCurrentToken]
  have hmin : min st.tokenBufferPos (MAX_TOKEN_LENGTH - 1) ≤ MAX_TOKEN_LENGTH - 1 :=
    Nat.min_le_right _ _
  have hM : 1 ≤ MAX_TOKEN_LENGTH := by decide
  omega

theorem TokInv_setMode (st : EmuState) (m : Mode) (h : TokInv st) :
    TokInv (setMode st m) := by
  refine TokInv_of_proj ?_ ?_ ?_ h <;>
    cases m <;>
    simp [setMode, Mode.forwardedToScreens, EmuState.bothScreens, EmuState.emit,
      EmuState.screenOp, setCurrentMode, setScreen, setImageSize,
      clearScreenAndSetColumns, clearEntireScreenEmu, getMode,
      argc_ite, argv_ite, pos_ite]

theorem TokInv_resetMode (st : EmuState) (m : Mode) (h : TokInv st) :
    TokInv (resetMode st m) := by
  refine TokInv_of_proj ?_ ?_ ?_ h <;>
    cases m <;>
    simp [resetMode, Mode.forwardedToScreens, EmuState.bothScreens, EmuState.emit,
      EmuState.screenOp, setCurrentMode, setScreen, setImageSize,
      clearScreenAndSetColumns, clearEntireScreenEmu, getMode,
      argc_ite, argv_ite, pos_ite]

theorem TokInv_saveMode (st : EmuState) (m : Mode) (h : TokInv st) :
    TokInv (saveMode st m) := h

theorem TokInv_restoreMode (st : EmuState) (m : Mode) (h : TokInv st) :
    TokInv (restoreMode st m) := by
  unfold restoreMode
  split
  · exact TokInv_setMode st m h
  · exact TokInv_resetMode st m h

theorem TokInv_resetModes (st : EmuState) (h : TokInv st) :
    TokInv (resetModes st) := by
  unfold resetModes
  exact TokInv_setMode _ _ (TokInv_resetMode _ _ (TokInv_saveMode _ _ (TokInv_resetMode _ _
    (TokInv_saveMode _ _ (TokInv_resetMode _ _ (TokInv_saveMode _ _ (TokInv_resetMode _ _
    (TokInv_saveMode _ _ (TokInv_resetMode _ _ (TokInv_saveMode _ _ (TokInv_resetMode _ _
    (TokInv_saveMode _ _ (TokInv_resetMode _ _ (TokInv_saveMode _ _ (TokInv_resetMode _ _
    (TokInv_saveMode _ _ (TokInv_resetMode _ _ (TokInv_saveMode _ _ (TokInv_resetMode _ _
    (TokInv_saveMode _ _ (TokInv_resetMode _ _ (TokInv_saveMode _ _ (TokInv_resetMode _ _
    (TokInv_saveMode _ _ (TokInv_resetMode _ _ h)))))))))))))))))))))))))

theorem TokInv_emit (st : EmuState) (e : Event) (h : TokInv st) : TokInv (st.emit e) := h

theorem TokInv_resetCharset (st : EmuState) (n : Nat) (h : TokInv st) :
    TokInv (resetCharset st n) := by
  unfold resetCharset
  split <;> exact h

theorem TokInv_reset (st : EmuState) (h : TokInv st) : TokInv (reset st) :=
  TokInv_emit _ _ (TokInv_emit _ _ (TokInv_resetCharset _ _ (TokInv_emit _ _
    (TokInv_resetCharset _ _ (TokInv_resetModes _ (TokInv_resetTokenizer _ h))))))

theorem TokInv_processSessionAttributeRequest (st : EmuState) (n : Nat) (h : TokInv st) :
    TokInv (processSessionAttributeRequest st n) := by
  refine TokInv_of_proj ?_ ?_ ?_ h <;>
    (simp only [processSessionAttributeRequest]; repeat' split) <;> rfl

theorem TokInv_setCHARSET (st : EmuState) (cs : CharsetState) (h : TokInv st) :
    TokInv (st.setCHARSET cs) := by
  unfold EmuState.setCHARSET
  split <;> exact TokInv_of_proj rfl rfl rfl h

theorem TokInv_useCharset (st : EmuState) (n : Nat) (h : TokInv st) :
    TokInv (useCharset st n) :=
  TokInv_setCHARSET _ _ h

theorem TokInv_setCharset (st : EmuState) (n cs : Nat) (h : TokInv st) :
    TokInv (setCharset st n cs) :=
  TokInv_useCharset _ _ (TokInv_of_proj rfl rfl rfl
    (TokInv_useCharset _ _ (TokInv_of_proj rfl rfl rfl h)))

theorem TokInv_setAndUseCharset (st : EmuState) (n cs : Nat) (h : TokInv st) :
    TokInv (setAndUseCharset st n cs) :=
  TokInv_useCharset _ _ (TokInv_setCHARSET _ _ h)

theorem TokInv_saveCursor (st : EmuState) (h : TokInv st) : TokInv (saveCursor st) :=
  TokInv_of_proj rfl rfl rfl (TokInv_setCHARSET _ _ h)

theorem TokInv_restoreCursor (st : EmuState) (h : TokInv st) : TokInv (restoreCursor st) :=
  TokInv_of_proj rfl rfl rfl (TokInv_setCHARSET _ _ h)

theorem TokInv_reportTerminalType (st : EmuState) (h : TokInv st) :
    TokInv (reportTerminalType st) := by
  unfold reportTerminalType
  split <;> exact TokInv_of_proj rfl rfl rfl h

theorem TokInv_reportSecondaryAttributes (st : EmuState) (h : TokInv st) :
    TokInv (reportSecondaryAttributes st) := by
  unfold reportSecondaryAttributes
  split <;> exact TokInv_of_proj rfl rfl rfl h

theorem tokInv_ite (c : Prop) [Decidable c] {a b : EmuState}
    (ha : TokInv a) (hb : TokInv b) : TokInv (if c then a else b) := by
  split <;> assumption

theorem TokInv_processTokenCtl (st : EmuState) (a : Nat) (h : TokInv st) :
    TokInv (processTokenCtl st a) :=
  tokInv_ite _ (TokInv_of_proj rfl rfl rfl h)
    (tokInv_ite _ (TokInv_of_proj rfl rfl rfl h)
    (tokInv_ite _ (TokInv_of_proj rfl rfl rfl h)
    (tokInv_ite _ (TokInv_of_proj rfl rfl rfl h)
    (tokInv_ite _ (TokInv_of_proj rfl rfl rfl h)
    (tokInv_ite _ (TokInv_of_proj rfl rfl rfl h)
    (tokInv_ite _ (TokInv_of_proj rfl rfl rfl h)
    (tokInv_ite _ (TokInv_of_proj rfl rfl rfl h)
    (tokInv_ite _ (TokInv_of_proj rfl rfl rfl h)
    (tokInv_ite _ (TokInv_of_proj rfl rfl rfl h)
    (tokInv_ite _ (TokInv_of_proj rfl rfl rfl h)
    (tokInv_ite _ (TokInv_of_proj rfl rfl rfl h)
    (tokInv_ite _ (TokInv_of_proj rfl rfl rfl h)
    (tokInv_ite _ (TokInv_of_proj rfl rfl rfl h)
    (tokInv_ite _ (TokInv_useCharset _ _ h)
    (tokInv_ite _ (TokInv_useCharset _ _ h)
    (tokInv_ite _ (h)
    (tokInv_ite _ (h)
    (tokInv_ite _ (h)
    (tokInv_ite _ (h)
    (tokInv_ite _ (h)
    (tokInv_ite _ (h)
    (tokInv_ite _ (h)
    (tokInv_ite _ (h)
    (tokInv_ite _ (TokInv_of_proj rfl rfl rfl h)
    (tokInv_ite _ (TokInv_of_proj rfl rfl rfl h)
    (tokInv_ite _ (TokInv_of_proj rfl rfl rfl h)
    (tokInv_ite _ (TokInv_of_proj rfl rfl rfl h)
    (tokInv_ite _ (h)
    (tokInv_ite _ (h)
    (tokInv_ite _ (h)
    (tokInv_ite _ (h)
    (TokInv_of_proj rfl rfl rfl h))))))))))))))))))))))))))))))))

theorem TokInv_processTokenEsc (st : EmuState) (a : Nat) (h : TokInv st) :
    TokInv (processTokenEsc st a) :=
  tokInv_ite _ (TokInv_of_proj rfl rfl rfl h)
    (tokInv_ite _ (TokInv_of_proj rfl rfl rfl h)
    (tokInv_ite _ (TokInv_of_proj rfl rfl rfl h)
    (tokInv_ite _ (TokInv_of_proj rfl rfl rfl h)
    (tokInv_ite _ (TokInv_reportTerminalType _ h)
    (tokInv_ite _ (TokInv_reset st h)
    (tokInv_ite _ (TokInv_useCharset _ _ h)
    (tokInv_ite _ (TokInv_useCharset _ _ h)
    (tokInv_ite _ (TokInv_saveCursor _ h)
    (tokInv_ite _ (TokInv_restoreCursor _ h)
    (tokInv_ite _ (TokInv_setMode _ _ h)
    (tokInv_ite _ (TokInv_resetMode _ _ h)
    (tokInv_ite _ (TokInv_setMode _ _ h)
    (TokInv_of_proj rfl rfl rfl h)))))))))))))

theorem TokInv_processTokenEscCs (st : EmuState) (a b : Nat) (h : TokInv st) :
    TokInv (processTokenEscCs st a b) :=
  tokInv_ite _ (TokInv_setCharset _ _ _ h)
    (tokInv_ite _ (TokInv_setCharset _ _ _ h)
    (tokInv_ite _ (TokInv_setCharset _ _ _ h)
    (tokInv_ite _ (TokInv_setCharset _ _ _ h)
    (tokInv_ite _ (TokInv_setCharset _ _ _ h)
    (tokInv_ite _ (TokInv_setCharset _ _ _ h)
    (tokInv_ite _ (TokInv_setCharset _ _ _ h)
    (tokInv_ite _ (TokInv_setCharset _ _ _ h)
    (tokInv_ite _ (TokInv_setCharset _ _ _ h)
    (tokInv_ite _ (TokInv_setCharset _ _ _ h)
    (tokInv_ite _ (TokInv_setCharset _ _ _ h)
    (tokInv_ite _ (TokInv_setCharset _ _ _ h)
    (tokInv_ite _ (TokInv_of_proj rfl rfl rfl h)
    (tokInv_ite _ (TokInv_of_proj rfl rfl rfl h)
    (TokInv_of_proj rfl rfl rfl h))))))))))))))

theorem TokInv_processTokenEscDe (st : EmuState) (a : Nat) (h : TokInv st) :
    TokInv (processTokenEscDe st a) :=
  tokInv_ite _ (TokInv_of_proj rfl rfl rfl h)
    (tokInv_ite _ (TokInv_of_proj rfl rfl rfl h)
    (tokInv_ite _ (TokInv_of_proj rfl rfl rfl h)
    (tokInv_ite _ (TokInv_of_proj rfl rfl rfl h)
    (tokInv_ite _ (TokInv_of_proj rfl rfl rfl h)
    (TokInv_of_proj rfl rfl rfl h)))))

theorem TokInv_processTokenCsiPs (st : EmuState) (a n : Nat) (p q : Int) (h : TokInv st) :
    TokInv (processTokenCsiPs st a n p q) :=
  tokInv_ite _ (TokInv_of_proj rfl rfl rfl h)
    (tokInv_ite _ (TokInv_of_proj rfl rfl rfl h)
    (tokInv_ite _ (h)
    (tokInv_ite _ (h)
    (tokInv_ite _ (h)
    (tokInv_ite _ (TokInv_of_proj rfl rfl rfl h)
    (tokInv_ite _ (TokInv_of_proj rfl rfl rfl h)
    (tokInv_ite _ (TokInv_of_proj rfl rfl rfl h)
    (tokInv_ite _ (TokInv_of_proj rfl rfl rfl h)
    (tokInv_ite _ (TokInv_of_proj rfl rfl rfl h)
    (tokInv_ite _ (TokInv_of_proj rfl rfl rfl h)
    (tokInv_ite _ (TokInv_of_proj rfl rfl rfl h)
    (tokInv_ite _ (TokInv_of_proj rfl rfl rfl h)
    (tokInv_ite _ (TokInv_of_proj rfl rfl rfl h)
    (tokInv_ite _ (TokInv_of_proj rfl rfl rfl h)
    (tokInv_ite _ (TokInv_setMode _ _ h)
    (tokInv_ite _ (h)
    (tokInv_ite _ (TokInv_of_proj rfl rfl rfl h)
    (tokInv_ite _ (TokInv_resetMode _ _ h)
    (tokInv_ite _ (TokInv_saveCursor _ h)
    (tokInv_ite _ (TokInv_restoreCursor _ h)
    (tokInv_ite _ (TokInv_of_proj rfl rfl rfl h)
    (tokInv_ite _ (TokInv_of_proj rfl rfl rfl h)
    (tokInv_ite _ (TokInv_of_proj rfl rfl rfl h)
    (tokInv_ite _ (TokInv_of_proj rfl rfl rfl h)
    (tokInv_ite _ (TokInv_of_proj rfl rfl rfl h)
    (tokInv_ite _ (TokInv_of_proj rfl rfl rfl h)
    (tokInv_ite _ (TokInv_of_proj rfl rfl rfl h)
    (tokInv_ite _ (TokInv_of_proj rfl rfl rfl h)
    (tokInv_ite _ (TokInv_of_proj rfl rfl rfl h)
    (tokInv_ite _ (TokInv_of_proj rfl rfl rfl h)
    (tokInv_ite _ (h)
    (tokInv_ite _ (h)
    (tokInv_ite _ (h)
    (tokInv_ite _ (TokInv_of_proj rfl rfl rfl h)
    (tokInv_ite _ (TokInv_of_proj rfl rfl rfl h)
    (tokInv_ite _ (TokInv_of_proj rfl rfl rfl h)
    (tokInv_ite _ (TokInv_of_proj rfl rfl rfl h)
    (tokInv_ite _ (TokInv_of_proj rfl rfl rfl h)
    (tokInv_ite _ (TokInv_of_proj rfl rfl rfl h)
    (tokInv_ite _ (TokInv_of_proj rfl rfl rfl h)
    (tokInv_ite _ (TokInv_of_proj rfl rfl rfl h)
    (tokInv_ite _ (TokInv_of_proj rfl rfl rfl h)
    (tokInv_ite _ (TokInv_of_proj rfl rfl rfl h)
    (tokInv_ite _ (TokInv_of_proj rfl rfl rfl h)
    (tokInv_ite _ (TokInv_of_proj rfl rfl rfl h)
    (tokInv_ite _ (TokInv_of_proj rfl rfl rfl h)
    (tokInv_ite _ (TokInv_of_proj rfl rfl rfl h)
    (tokInv_ite _ (TokInv_of_proj rfl rfl rfl h)
    (tokInv_ite _ (TokInv_of_proj rfl rfl rfl h)
    (tokInv_ite _ (TokInv_of_proj rfl rfl rfl h)
    (tokInv_ite _ (TokInv_of_proj rfl rfl rfl h)
    (tokInv_ite _ (TokInv_of_proj rfl rfl rfl h)
    (tokInv_ite _ (TokInv_of_proj rfl rfl rfl h)
    (tokInv_ite _ (TokInv_of_proj rfl rfl rfl h)
    (tokInv_ite _ (TokInv_of_proj rfl rfl rfl h)
    (tokInv_ite _ (TokInv_of_proj rfl rfl rfl h)
    (tokInv_ite _ (TokInv_of_proj rfl rfl rfl h)
    (tokInv_ite _ (TokInv_of_proj rfl rfl rfl h)
    (tokInv_ite _ (TokInv_of_proj rfl rfl rfl h)
    (tokInv_ite _ (TokInv_of_proj rfl rfl rfl h)
    (tokInv_ite _ (TokInv_of_proj rfl rfl rfl h)
    (tokInv_ite _ (TokInv_of_proj rfl rfl rfl h)
    (tokInv_ite _ (TokInv_of_proj rfl rfl rfl h)
    (tokInv_ite _ (TokInv_of_proj rfl rfl rfl h)
    (tokInv_ite _ (TokInv_of_proj rfl rfl rfl h)
    (tokInv_ite _ (TokInv_of_proj rfl rfl rfl h)
    (tokInv_ite _ (TokInv_of_proj rfl rfl rfl h)
    (tokInv_ite _ (TokInv_of_proj rfl rfl rfl h)
    (tokInv_ite _ (TokInv_of_proj rfl rfl rfl h)
    (tokInv_ite _ (TokInv_of_proj rfl rfl rfl h)
    (tokInv_ite _ (TokInv_of_proj rfl rfl rfl h)
    (tokInv_ite _ (TokInv_of_proj rfl rfl rfl h)
    (tokInv_ite _ (TokInv_of_proj rfl rfl rfl h)
    (tokInv_ite _ (TokInv_of_proj rfl rfl rfl h)
    (tokInv_ite _ (TokInv_of_proj rfl rfl rfl h)
    (tokInv_ite _ (TokInv_of_proj rfl rfl rfl h)
    (tokInv_ite _ (TokInv_of_proj rfl rfl rfl h)
    (tokInv_ite _ (TokInv_of_proj rfl rfl rfl h)
    (tokInv_ite _ (TokInv_of_proj rfl rfl rfl h)
    (tokInv_ite _ (TokInv_of_proj rfl rfl rfl h)
    (tokInv_ite _ (h)
    (tokInv_ite _ (h)
    (tokInv_ite _ (h)
    (tokInv_ite _ (h)
    (tokInv_ite _ (h)
    (tokInv_ite _ (TokInv_of_proj rfl rfl rfl h)
    (tokInv_ite _ (TokInv_of_proj rfl rfl rfl h)
    (TokInv_of_proj rfl rfl rfl h))))))))))))))))))))))))))))))))))))))))))))))))))))))))))))))))))))))))))))))))))))))))

theorem TokInv_processTokenCsiPn (st : EmuState) (a : Nat) (p q : Int) (h : TokInv st) :
    TokInv (processTokenCsiPn st a p q) :=
  tokInv_ite _ (TokInv_of_proj rfl rfl rfl h)
    (tokInv_ite _ (TokInv_of_proj rfl rfl rfl h)
    (tokInv_ite _ (TokInv_of_proj rfl rfl rfl h)
    (tokInv_ite _ (TokInv_of_proj rfl rfl rfl h)
    (tokInv_ite _ (TokInv_of_proj rfl rfl rfl h)
    (tokInv_ite _ (TokInv_of_proj rfl rfl rfl h)
    (tokInv_ite _ (TokInv_of_proj rfl rfl rfl h)
    (tokInv_ite _ (TokInv_of_proj rfl rfl rfl h)
    (tokInv_ite _ (TokInv_of_proj rfl rfl rfl h)
    (tokInv_ite _ (TokInv_of_proj rfl rfl rfl h)
    (tokInv_ite _ (TokInv_of_proj rfl rfl rfl h)
    (tokInv_ite _ (TokInv_of_proj rfl rfl rfl h)
    (tokInv_ite _ (TokInv_of_proj rfl rfl rfl h)
    (tokInv_ite _ (TokInv_of_proj rfl rfl rfl h)
    (tokInv_ite _ (TokInv_of_proj rfl rfl rfl h)
    (tokInv_ite _ (TokInv_of_proj rfl rfl rfl h)
    (tokInv_ite _ (TokInv_of_proj rfl rfl rfl h)
    (tokInv_ite _ (TokInv_of_proj rfl rfl rfl h)
    (tokInv_ite _ (TokInv_reportTerminalType _ h)
    (tokInv_ite _ (TokInv_of_proj rfl rfl rfl h)
    (tokInv_ite _ (TokInv_of_proj rfl rfl rfl h)
    (tokInv_ite _ (TokInv_of_proj rfl rfl rfl h)
    (tokInv_ite _ (h)
    (TokInv_of_proj rfl rfl rfl h)))))))))))))))))))))))

theorem TokInv_processTokenCsiPr (st : EmuState) (a n : Nat) (h : TokInv st) :
    TokInv (processTokenCsiPr st a n) :=
  tokInv_ite _ (TokInv_setMode _ _ h)
    (tokInv_ite _ (TokInv_resetMode _ _ h)
    (tokInv_ite _ (TokInv_saveMode _ _ h)
    (tokInv_ite _ (TokInv_restoreMode _ _ h)
    (tokInv_ite _ (TokInv_resetMode _ _ h)
    (tokInv_ite _ (TokInv_setMode _ _ h)
    (tokInv_ite _ (TokInv_resetMode _ _ h)
    (tokInv_ite _ (h)
    (tokInv_ite _ (h)
    (tokInv_ite _ (TokInv_of_proj rfl rfl rfl h)
    (tokInv_ite _ (TokInv_of_proj rfl rfl rfl h)
    (tokInv_ite _ (TokInv_of_proj rfl rfl rfl h)
    (tokInv_ite _ (TokInv_of_proj rfl rfl rfl h)
    (tokInv_ite _ (TokInv_of_proj rfl rfl rfl h)
    (tokInv_ite _ (TokInv_of_proj rfl rfl rfl h)
    (tokInv_ite _ (TokInv_of_proj rfl rfl rfl h)
    (tokInv_ite _ (TokInv_of_proj rfl rfl rfl h)
    (tokInv_ite _ (TokInv_of_proj rfl rfl rfl h)
    (tokInv_ite _ (TokInv_of_proj rfl rfl rfl h)
    (tokInv_ite _ (h)
    (tokInv_ite _ (h)
    (tokInv_ite _ (h)
    (tokInv_ite _ (TokInv_setMode _ _ h)
    (tokInv_ite _ (TokInv_resetMode _ _ h)
    (tokInv_ite _ (TokInv_saveMode _ _ h)
    (tokInv_ite _ (TokInv_restoreMode _ _ h)
    (tokInv_ite _ (TokInv_setMode _ _ h)
    (tokInv_ite _ (TokInv_resetMode _ _ h)
    (tokInv_ite _ (h)
    (tokInv_ite _ (TokInv_setMode _ _ h)
    (tokInv_ite _ (TokInv_resetMode _ _ h)
    (tokInv_ite _ (TokInv_saveMode _ _ h)
    (tokInv_ite _ (TokInv_restoreMode _ _ h)
    (tokInv_ite _ (h)
    (tokInv_ite _ (TokInv_setMode _ _ h)
    (tokInv_ite _ (TokInv_resetMode _ _ h)
    (tokInv_ite _ (TokInv_saveMode _ _ h)
    (tokInv_ite _ (TokInv_restoreMode _ _ h)
    (tokInv_ite _ (h)
    (tokInv_ite _ (TokInv_resetMode _ _ h)
    (tokInv_ite _ (h)
    (tokInv_ite _ (h)
    (tokInv_ite _ (TokInv_setMode _ _ h)
    (tokInv_ite _ (TokInv_resetMode _ _ h)
    (tokInv_ite _ (TokInv_saveMode _ _ h)
    (tokInv_ite _ (TokInv_restoreMode _ _ h)
    (tokInv_ite _ (TokInv_setMode _ _ h)
    (tokInv_ite _ (TokInv_resetMode _ _ h)
    (tokInv_ite _ (TokInv_saveMode _ _ h)
    (tokInv_ite _ (TokInv_restoreMode _ _ h)
    (tokInv_ite _ (TokInv_of_proj rfl rfl rfl h)
    (tokInv_ite _ (TokInv_of_proj rfl rfl rfl h)
    (tokInv_ite _ (TokInv_setMode _ _ h)
    (tokInv_ite _ (TokInv_resetMode _ _ h)
    (tokInv_ite _ (TokInv_saveMode _ _ h)
    (tokInv_ite _ (TokInv_restoreMode _ _ h)
    (tokInv_ite _ (TokInv_setMode _ _ h)
    (tokInv_ite _ (TokInv_resetMode _ _ h)
    (tokInv_ite _ (TokInv_saveMode _ _ h)
    (tokInv_ite _ (TokInv_restoreMode _ _ h)
    (tokInv_ite _ (TokInv_setMode _ _ h)
    (tokInv_ite _ (TokInv_resetMode _ _ h)
    (tokInv_ite _ (TokInv_saveMode _ _ h)
    (tokInv_ite _ (TokInv_restoreMode _ _ h)
    (tokInv_ite _ (TokInv_setMode _ _ h)
    (tokInv_ite _ (TokInv_resetMode _ _ h)
    (tokInv_ite _ (TokInv_saveMode _ _ h)
    (tokInv_ite _ (TokInv_restoreMode _ _ h)
    (tokInv_ite _ (h)
    (tokInv_ite _ (TokInv_setMode _ _ h)
    (tokInv_ite _ (TokInv_resetMode _ _ (TokInv_of_proj rfl rfl rfl h))
    (tokInv_ite _ (TokInv_saveMode _ _ h)
    (tokInv_ite _ (TokInv_restoreMode _ _ h)
    (tokInv_ite _ (TokInv_saveCursor _ h)
    (tokInv_ite _ (TokInv_restoreCursor _ h)
    (tokInv_ite _ (TokInv_saveCursor _ h)
    (tokInv_ite _ (TokInv_restoreCursor _ h)
    (tokInv_ite _ (TokInv_setMode _ _ (TokInv_of_proj rfl rfl rfl (TokInv_saveCursor _ h)))
    (tokInv_ite _ (TokInv_restoreCursor _ (TokInv_resetMode _ _ h))
    (tokInv_ite _ (TokInv_setMode _ _ h)
    (tokInv_ite _ (TokInv_resetMode _ _ h)
    (tokInv_ite _ (TokInv_saveMode _ _ h)
    (tokInv_ite _ (TokInv_restoreMode _ _ h)
    (TokInv_of_proj rfl rfl rfl h)))))))))))))))))))))))))))))))))))))))))))))))))))))))))))))))))))))))))))))))))))

theorem TokInv_processTokenCsiSp (st : EmuState) (a : Nat) (h : TokInv st) :
    TokInv (processTokenCsiSp st a) :=
  tokInv_ite _ (TokInv_of_proj rfl rfl rfl h)
    (TokInv_of_proj rfl rfl rfl h)

theorem TokInv_processTokenCsiPsp (st : EmuState) (a n : Nat) (h : TokInv st) :
    TokInv (processTokenCsiPsp st a n) :=
  tokInv_ite _ (TokInv_of_proj rfl rfl rfl h)
    (tokInv_ite _ (TokInv_of_proj rfl rfl rfl h)
    (tokInv_ite _ (TokInv_of_proj rfl rfl rfl h)
    (tokInv_ite _ (TokInv_of_proj rfl rfl rfl h)
    (tokInv_ite _ (TokInv_of_proj rfl rfl rfl h)
    (tokInv_ite _ (TokInv_of_proj rfl rfl rfl h)
    (tokInv_ite _ (TokInv_of_proj rfl rfl rfl h)
    (TokInv_of_proj rfl rfl rfl h)))))))

theorem TokInv_processTokenCsiPe (st : EmuState) (a : Nat) (h : TokInv st) :
    TokInv (processTokenCsiPe st a) :=
  tokInv_ite _ (h)
    (TokInv_of_proj rfl rfl rfl h)

theorem TokInv_processTokenVt52 (st : EmuState) (a : Nat) (p q : Int) (h : TokInv st) :
    TokInv (processTokenVt52 st a p q) :=
  tokInv_ite _ (TokInv_of_proj rfl rfl rfl h)
    (tokInv_ite _ (TokInv_of_proj rfl rfl rfl h)
    (tokInv_ite _ (TokInv_of_proj rfl rfl rfl h)
    (tokInv_ite _ (TokInv_of_proj rfl rfl rfl h)
    (tokInv_ite _ (TokInv_setAndUseCharset _ _ _ h)
    (tokInv_ite _ (TokInv_setAndUseCharset _ _ _ h)
    (tokInv_ite _ (TokInv_of_proj rfl rfl rfl h)
    (tokInv_ite _ (TokInv_of_proj rfl rfl rfl h)
    (tokInv_ite _ (TokInv_of_proj rfl rfl rfl h)
    (tokInv_ite _ (TokInv_of_proj rfl rfl rfl h)
    (tokInv_ite _ (TokInv_of_proj rfl rfl rfl h)
    (tokInv_ite _ (TokInv_reportTerminalType _ h)
    (tokInv_ite _ (TokInv_setMode _ _ h)
    (tokInv_ite _ (TokInv_setMode _ _ h)
    (tokInv_ite _ (TokInv_resetMode _ _ h)
    (TokInv_of_proj rfl rfl rfl h)))))))))))))))

theorem TokInv_processTokenCsiPq (st : EmuState) (a : Nat) (h : TokInv st) :
    TokInv (processTokenCsiPq st a) :=
  tokInv_ite _ (TokInv_of_proj rfl rfl rfl h)
    (TokInv_of_proj rfl rfl rfl h)

theorem TokInv_processTokenCsiPg (st : EmuState) (a : Nat) (h : TokInv st) :
    TokInv (processTokenCsiPg st a) :=
  tokInv_ite _ (TokInv_reportSecondaryAttributes _ h)
    (TokInv_of_proj rfl rfl rfl h)

theorem TokInv_processToken (st : EmuState) (t : Token) (p q : Int) (h : TokInv st) :
    TokInv (processToken st t p q) := by
  cases t with
  | chr => exact TokInv_of_proj rfl rfl rfl h
  | ctl a => exact TokInv_processTokenCtl st a h
  | esc a => exact TokInv_processTokenEsc st a h
  | escCs a b => exact TokInv_processTokenEscCs st a b h
  | escDe a => exact TokInv_processTokenEscDe st a h
  | csiPs a n => exact TokInv_processTokenCsiPs st a n p q h
  | csiPn a => exact TokInv_processTokenCsiPn st a p q h
  | csiPr a n => exact TokInv_processTokenCsiPr st a n h
  | vt52 a => exact TokInv_processTokenVt52 st a p q h
  | csiPg a => exact TokInv_processTokenCsiPg st a h
  | csiPe a => exact TokInv_processTokenCsiPe st a h
  | csiSp a => exact TokInv_processTokenCsiSp st a h
  | csiPsp a n => exact TokInv_processTokenCsiPsp st a n h
  | csiPq a => exact TokInv_processTokenCsiPq st a h


theorem TokInv_csiLoop (fuel : Nat) (cc : Nat) :
    ∀ (st : EmuState) (i : Nat), TokInv st → TokInv (csiLoop fuel st cc i) := by
  induction fuel with
  | zero => exact fun st i h => h
  | succ fuel ih =>
      intro st i h
      exact tokInv_ite _
        (tokInv_ite _ (ih _ _ (TokInv_processToken _ _ _ _ h))
        (tokInv_ite _ (ih _ _ (TokInv_processToken _ _ _ _ h))
        (tokInv_ite _ (ih _ _ (TokInv_processToken _ _ _ _ h))
        (tokInv_ite _ (ih _ _ (TokInv_processToken _ _ _ _ h))
        (tokInv_ite _ (ih _ _ (TokInv_processToken _ _ _ _ h))
        (tokInv_ite _ (ih _ _ (TokInv_processToken _ _ _ _ h))
        (ih _ _ h)))))))
        h

theorem TokInv_processChar_scanToken (fuel : Nat) :
    (∀ (st : EmuState) (cc : Nat), TokInv st → TokInv (processChar fuel st cc)) ∧
    (∀ (st : EmuState) (cc : Nat), TokInv st → TokInv (scanToken fuel st cc)) := by
  induction fuel with
  | zero => exact ⟨fun _ _ h => h, fun _ _ h => h⟩
  | succ fuel ih =>
      refine ⟨fun st cc h => ?_, fun st cc h => ?_⟩
      · exact tokInv_ite _ (h)
          (tokInv_ite _ (tokInv_ite _ (tokInv_ite _ (ih.2 _ _ (TokInv_addToCurrentToken _ _ h))
          (h))
          (tokInv_ite _ (ih.2 _ _ (TokInv_addToCurrentToken _ _ (tokInv_ite _ (TokInv_resetTokenizer _ h) h)))
          (TokInv_processToken _ _ _ _ (tokInv_ite _ (TokInv_resetTokenizer _ h) h))))
          (ih.2 _ _ (TokInv_addToCurrentToken _ _ h)))
      · exact tokInv_ite _
          (tokInv_ite _ (h)
          (tokInv_ite _ (ih.1 _ _ h)
          (tokInv_ite _ (h)
          (tokInv_ite _ (TokInv_resetTokenizer _ (TokInv_processSessionAttributeRequest _ _ (tokInv_ite _ (TokInv_of_proj rfl rfl rfl h) h)))
          (tokInv_ite _ (ih.1 _ _ (TokInv_resetTokenizer _ (TokInv_processSessionAttributeRequest _ _ h)))
          (tokInv_ite _ (TokInv_resetTokenizer _ (TokInv_processSessionAttributeRequest _ _ h))
          (tokInv_ite _ (h)
          (tokInv_ite _ (h)
          (tokInv_ite _ (h)
          (tokInv_ite _ (h)
          (tokInv_ite _ (h)
          (tokInv_ite _ (h)
          (tokInv_ite _ (h)
          (tokInv_ite _ (TokInv_resetTokenizer _ (TokInv_processToken _ _ _ _ h))
          (tokInv_ite _ (h)
          (tokInv_ite _ (TokInv_resetTokenizer _ (TokInv_processToken _ _ _ _ h))
          (tokInv_ite _ (TokInv_resetTokenizer _ (TokInv_processToken _ _ _ _ h))
          (tokInv_ite _ (TokInv_resetTokenizer _ (TokInv_processToken _ _ _ _ h))
          (tokInv_ite _ (TokInv_resetTokenizer _ (TokInv_processToken _ _ _ _ h))
          (tokInv_ite _ (TokInv_resetTokenizer _ (TokInv_processToken _ _ _ _ h))
          (tokInv_ite _ (TokInv_resetTokenizer _ (TokInv_processToken _ _ _ _ h))
          (tokInv_ite _ (TokInv_resetTokenizer _ (TokInv_processToken _ _ _ _ h))
          (tokInv_ite _ (TokInv_resetTokenizer _ (TokInv_processToken _ _ _ _ h))
          (tokInv_ite _ (TokInv_addDigit _ _ h)
          (tokInv_ite _ (TokInv_addArgument _ h)
          (tokInv_ite _ (h)
          (tokInv_ite _ (TokInv_resetTokenizer _ (TokInv_of_proj rfl rfl rfl h))
          (TokInv_resetTokenizer _ (TokInv_csiLoop _ _ _ _ h)))))))))))))))))))))))))))))
          (tokInv_ite _ (h)
          (tokInv_ite _ (TokInv_resetTokenizer _ (TokInv_processToken _ _ _ _ h))
          (tokInv_ite _ (h)
          (tokInv_ite _ (h)
          (tokInv_ite _ (TokInv_resetTokenizer _ (TokInv_processToken _ _ _ _ h))
          (TokInv_resetTokenizer _ (TokInv_processToken _ _ _ _ h)))))))

theorem TokInv_receiveChars (st : EmuState) (chars : List Nat) (h : TokInv st) :
    TokInv (receiveChars st chars) := by
  induction chars generalizing st with
  | nil => exact h
  | cons c cs ih =>
      exact ih (processChar 8 st c) ((TokInv_processChar_scanToken 8).1 st c h)

theorem TokInv_initState : TokInv initState := by
  refine ⟨by decide, ?_, by decide⟩
  intro i
  show (if i = 0 then 0 else if i = 1 then 0 else 0) ≤ MAX_ARGUMENT
  split
  · exact Nat.zero_le _
  · split
    · exact Nat.zero_le _
    · exact Nat.zero_le _

/-- C3: for every input stream fed to `receiveChars` from the initial
state, the tokenizer state afterwards satisfies `argc ≤ MAXARGS - 1`, every
accumulated argument is at most `MAX_ARGUMENT` (40960), and
`tokenBufferPos ≤ MAX_TOKEN_LENGTH`; moreover each digit accumulates as
`argv[argc] := min(10 * argv[argc] + digit, MAX_ARGUMENT)` and each `;`
advances `argc` capped at `MAXARGS - 1` with the fresh slot zeroed. -/
theorem C3_tokenizer_bounds (input : List Nat) (st : EmuState) (d : Nat) :
    ((receiveChars initState input).argc ≤ MAXARGS - 1 ∧
      (∀ i, (receiveChars initState input).argv i ≤ MAX_ARGUMENT) ∧
      (receiveChars initState input).tokenBufferPos ≤ MAX_TOKEN_LENGTH) ∧
    (addDigit st d).argv st.argc = min (10 * st.argv st.argc + d) MAX_ARGUMENT ∧
    (addArgument st).argc = min (st.argc + 1) (MAXARGS - 1) ∧
    (addArgument st).argv (addArgument st).argc = 0 := by
  refine ⟨TokInv_receiveChars _ _ TokInv_initState, ?_, rfl, ?_⟩
  · simp [addDigit]
  · simp [addArgument]


/-! ### C4: SGR / character stream order -/

/-- C4: feeding "\x1B[31mA\x1B[0mB" (ANSI mode, default US-ASCII
charset) produces exactly the Screen call sequence
setForeColor(COLOR_SPACE_SYSTEM, 1); displayCharacter('A');
setDefaultRendition(); displayCharacter('B'), in that order: tokens are
dispatched in strict stream order. -/
theorem C4_sgr_stream_order :
    (receiveChars initState (ascii "\x1b[31mA\x1b[0mB")).events =
      [.screen 0 (.setForeColor COLOR_SPACE_SYSTEM 1),
       .screen 0 (.displayCharacter 0x41),
       .screen 0 .setDefaultRendition,
       .screen 0 (.displayCharacter 0x42)] := by
  rfl

/-! ### C6: the charset filter -/

/-- C6: `applyCharset(c)` returns `vt100_graphics[c - 0x5F]` whenever the
active charset slot is the DEC graphics charset '0' and 0x5F ≤ c ≤ 0x7E —
the `graphic` flag the code tests holds exactly this, stated as the
coherence hypothesis that `useCharset` (re)establishes at every designation;
in particular 0x60 maps to U+25C6, 0x71 to U+2500, 0x78 to U+2502, and after
"\x1B(0" the printable 'a' reaches the screen as U+2592; it returns U+00A3
when the pound flag is active and c is '#'; and it returns c unchanged in
every other case. -/
theorem C6_applyCharset (cs : CharsetState) (c : Nat)
    (hcoh : cs.graphic = decide (cs.charset cs.cu_cs = 0x30)) :
    (cs.charset cs.cu_cs = 0x30 → 0x5f ≤ c → c ≤ 0x7e →
      applyCharsetCS cs c = vt100_graphics.getD (c - 0x5f) 0) ∧
    vt100_graphics.getD (0x60 - 0x5f) 0 = 0x25C6 ∧
    vt100_graphics.getD (0x71 - 0x5f) 0 = 0x2500 ∧
    vt100_graphics.getD (0x78 - 0x5f) 0 = 0x2502 ∧
    (receiveChars initState (ascii "\x1b(0a")).events =
      [.screen 0 (.displayCharacter 0x2592)] ∧
    (∀ n, (useCharset (setCharset initState 0 0x30) n).CHARSET.graphic =
      decide ((useCharset (setCharset initState 0 0x30) n).CHARSET.charset
        ((useCharset (setCharset initState 0 0x30) n).CHARSET.cu_cs) = 0x30)) ∧
    (cs.pound = true → c = 0x23 → applyCharsetCS cs c = 0xa3) ∧
    (¬ (cs.charset cs.cu_cs = 0x30 ∧ 0x5f ≤ c ∧ c ≤ 0x7e) →
      ¬ (cs.pound = true ∧ c = 0x23) → applyCharsetCS cs c = c) := by
  refine ⟨?_, rfl, rfl, rfl, by rfl, ?_, ?_, ?_⟩
  · intro hslot h1 h2
    unfold applyCharsetCS
    rw [if_pos ⟨by rw [hcoh, hslot]; rfl, h1, h2⟩]
  · intro n
    unfold useCharset
    cases hs : (setCharset initState 0 0x30).screenIs1 <;>
      simp [EmuState.CHARSET, EmuState.setCHARSET, hs]
  · intro hp hc
    subst hc
    unfold applyCharsetCS
    rw [if_neg, if_pos ⟨hp, rfl⟩]
    rintro ⟨-, h5f, -⟩
    exact absurd h5f (by decide)
  · intro hn1 hn2
    unfold applyCharsetCS
    rw [if_neg, if_neg hn2]
    rintro ⟨hg, hr1, hr2⟩
    exact hn1 ⟨of_decide_eq_true (hcoh ▸ hg), hr1, hr2⟩

/-- Witness for C6: the DEC graphics charset state maps 0x71 through the
table. -/
theorem C6_applyCharset_witness :
    applyCharsetCS graphicsCS 0x71 = vt100_graphics.getD (0x71 - 0x5f) 0 :=
  (C6_applyCharset graphicsCS 0x71 (by decide)).1 (by decide) (by decide) (by decide)

/-! ### C7: the Mouse1002 wheel/release drop -/

/-- C7 counterexample: with Mouse1002 on and Mouse1006 off, a release
(eventType 2) of button 0 has its cb replaced by 3 by the release encoding
(second conjunct states the source's encoding condition), yet bytes are
emitted: the `cb == 3` drop check runs before the release encoding, not
after it as the claim states. -/
theorem C7_counterexample :
    getMode mouse1002State .Mouse1002 = true ∧
    (if (2 : Int) = 2 ∧ ¬ getMode mouse1002State .Mouse1006 then (3 : Int) else 0) = 3 ∧
    sendMouseEvent mouse1002State 0 1 1 2 =
      some [0x1b, 0x5b, 0x4d, 0x23, 0x21, 0x21] := by
  decide

/-- C7 (amended): the drop applies to the *incoming* cb: whenever
Mouse1002 is active and the cb passed to sendMouseEvent equals 3, no bytes
are emitted (sendData is not called), for every coordinate pair and event
type; a release event whose cb becomes 3 only through release encoding is
still sent. -/
theorem C7_mouse1002_drop (st : EmuState) (cx cy eventType : Int)
    (h : getMode st .Mouse1002 = true) :
    sendMouseEvent st 3 cx cy eventType = none := by
  unfold sendMouseEvent
  split
  · rfl
  · split
    · rfl
    · rw [if_pos ⟨rfl, h⟩]

/-- Witness for C7 at a wheel-marker event in the Mouse1002 state. -/
theorem C7_mouse1002_drop_witness :
    sendMouseEvent mouse1002State 3 10 5 0 = none :=
  C7_mouse1002_drop mouse1002State 10 5 0 (by decide)

/-! ### C8: setCharset and the CHARSET aliasing -/

/-- C8 counterexample: `setCharset(0, '0')` violates the claimed frame:
with the primary screen current and differing active slots (screen 0 at 0,
screen 1 at 1), screen 0's `cu_cs` changes from 0 to 1 (the claim says every
`cu_cs` keeps its previous value); and even from the default state the
non-current screen's `graphic` flag is not recomputed although its active
slot now holds '0'. -/
theorem C8_counterexample :
    splitCuState.charset0.cu_cs = 0 ∧
    (setCharset splitCuState 0 0x30).charset0.cu_cs = 1 ∧
    (setCharset defaultState 0 0x30).charset1.charset 0 = 0x30 ∧
    (setCharset defaultState 0 0x30).charset1.cu_cs = 0 ∧
    (setCharset defaultState 0 0x30).charset1.graphic = false := by
  decide

/-- C8 (amended): `setCharset(n, cs)` writes designator slot n&3 of both
screens' tables, but both `useCharset` refreshes act through the `CHARSET`
macro on the *current* screen's state: the current screen's active index
ends as the *other* screen's original index (mod 4) and its graphic/pound
flags are recomputed from its own updated table at that index; the
non-current screen changes only in slot n&3 (its index, flags and snapshots
stay, unrecomputed); snapshots of the current screen and the rest of the
emulator state are untouched. -/
theorem C8_setCharset_characterization (st : EmuState) (n cs k : Nat) :
    ((setCharset st n cs).charset0.charset k =
      if k = n % 4 then cs else st.charset0.charset k) ∧
    ((setCharset st n cs).charset1.charset k =
      if k = n % 4 then cs else st.charset1.charset k) ∧
    ((setCharset st n cs).CHARSET.cu_cs =
      (if st.screenIs1 then st.charset0 else st.charset1).cu_cs % 4) ∧
    ((setCharset st n cs).CHARSET.graphic = decide
      ((if (if st.screenIs1 then st.charset0 else st.charset1).cu_cs % 4 = n % 4
        then cs
        else st.CHARSET.charset
          ((if st.screenIs1 then st.charset0 else st.charset1).cu_cs % 4)) = 0x30)) ∧
    ((setCharset st n cs).CHARSET.pound = decide
      ((if (if st.screenIs1 then st.charset0 else st.charset1).cu_cs % 4 = n % 4
        then cs
        else st.CHARSET.charset
          ((if st.screenIs1 then st.charset0 else st.charset1).cu_cs % 4)) = 0x41)) ∧
    ((setCharset st n cs).CHARSET.sa_graphic = st.CHARSET.sa_graphic) ∧
    ((setCharset st n cs).CHARSET.sa_pound = st.CHARSET.sa_pound) ∧
    ((if st.screenIs1 then (setCharset st n cs).charset0
      else (setCharset st n cs).charset1).cu_cs =
      (if st.screenIs1 then st.charset0 else st.charset1).cu_cs) ∧
    ((if st.screenIs1 then (setCharset st n cs).charset0
      else (setCharset st n cs).charset1).graphic =
      (if st.screenIs1 then st.charset0 else st.charset1).graphic) ∧
    ((if st.screenIs1 then (setCharset st n cs).charset0
      else (setCharset st n cs).charset1).pound =
      (if st.screenIs1 then st.charset0 else st.charset1).pound) ∧
    ((if st.screenIs1 then (setCharset st n cs).charset0
      else (setCharset st n cs).charset1).sa_graphic =
      (if st.screenIs1 then st.charset0 else st.charset1).sa_graphic) ∧
    ((if st.screenIs1 then (setCharset st n cs).charset0
      else (setCharset st n cs).charset1).sa_pound =
      (if st.screenIs1 then st.charset0 else st.charset1).sa_pound) ∧
    (setCharset st n cs).screenIs1 = st.screenIs1 ∧
    (setCharset st n cs).events = st.events := by
  cases hs : st.screenIs1 <;>
    simp [setCharset, useCharset, EmuState.CHARSET, EmuState.setCHARSET, hs]

/-! ### C9: feeding the device-attribute replies back in -/

/-- C9 counterexample: the DA1 reply "\x1B[?1;2c", fed back in ANSI
mode, dispatches token_csi_pr('c',1) and token_csi_pr('c',2); processToken
has no case for either, so its default calls reportDecodingError — twice,
contradicting the claim that all three DA replies tokenize without any such
call. -/
theorem C9_counterexample :
    (receiveChars initState (ascii "\x1b[?1;2c")).events =
      [.reportDecodingError, .reportDecodingError] := by
  rfl

/-- C9 (amended): of the core's own device-attribute replies fed back in
ANSI mode, only the DA2 reply "\x1B[>0;115;0c" tokenizes without any call to
reportDecodingError (it triggers reportSecondaryAttributes once per
parameter, sending the DA2 reply three times); the DA1 reply triggers
reportDecodingError at its final 'c' (token_csi_pr('c', n) is unhandled, once
per parameter), and the DA3 reply "\x1BP!|7E4B4445\x1B\\" triggers it at the
ESC-backslash terminator (token_esc of backslash is unhandled) after the DCS
body is swallowed. -/
theorem C9_da_replies_tokenization :
    countRDE (receiveChars initState (ascii "\x1b[>0;115;0c")).events = 0 ∧
    (receiveChars initState (ascii "\x1b[>0;115;0c")).events =
      [.sendData (ascii "\x1b[>0;115;0c"), .sendData (ascii "\x1b[>0;115;0c"),
       .sendData (ascii "\x1b[>0;115;0c")] ∧
    countRDE (receiveChars initState (ascii "\x1b[?1;2c")).events = 2 ∧
    (receiveChars initState (ascii "\x1bP!|7E4B4445\x1b\\")).events =
      [.reportDecodingError] := by
  refine ⟨?_, ?_, ?_, ?_⟩ <;> rfl

/-! ### C10: CAN and SUB abort the current sequence -/

/-- C10: a CAN (0x18) or SUB (0x1A) code point arriving outside an OSC
string resets the tokenizer (aborting any partially scanned escape
sequence) and invokes displayCharacter(0x2592) — the visible substitution
glyph — on the current screen; this is the whole effect of the character. -/
theorem C10_can_sub_abort (fuel : Nat) (st : EmuState) (cc : Nat)
    (hosc : osc st = false) (hcc : cc = 0x18 ∨ cc = 0x1a) :
    processChar (fuel + 1) st cc =
      (resetTokenizer st).screenOp (.displayCharacter 0x2592) := by
  rcases hcc with h | h <;> subst h <;>
    simp [processChar, ces, charClass, hosc, processToken, processTokenCtl, tokenCtl,
      CTL, CHR, CPN, DIG, SCS, GRP, CPS, INT, ascii]

/-- Witness for C10: CAN from the initial state. -/
theorem C10_can_sub_abort_witness :
    processChar 1 initState 0x18 =
      (resetTokenizer initState).screenOp (.displayCharacter 0x2592) :=
  C10_can_sub_abort 0 initState 0x18 (by decide) (Or.inl rfl)

end Konsole
